import Mathlib

/-!
# Teleportation control plane of meepo

A shallow embedding of `pkg/meepo/teleport.go`, `pkg/meepo/new_teleportation.go` and
`pkg/meepo/close_teleportation.go`.

The Go methods on `*Meepo` become functions that take the node state `Meepo` and return the
result together with the new state.  Everything a method observes from outside the node
(the answer of a round trip, whether `net.Listen` works, whether a half can be constructed,
how an address resolves) is read from an environment `Env`, so every theorem holds for all
behaviours of the peer and of the operating system.  Effects that are visible from outside
(a request put on the wire, a response sent, a listener opened or closed, a goroutine
started) are appended to the node's `log`.
-/

namespace Mp

/-! ## Data model -/

/-- A `net.Addr`: the two strings its interface exposes, `Network()` and `String()`. -/
structure Addr where
  network : String
  text : String
  deriving DecidableEq, Repr

/-- Go `error` values met by the control plane: the two sentinel errors of the package,
the value built by `fmt.Errorf(format)` and any other error, given by its message. -/
inductive Err where
  | TransportNotExistError
  | TeleportationNotExistError
  | Errorf (format : String)
  | other (text : String)
  deriving DecidableEq, Repr

/-- Modelled from the spec: the `Error()` text of an error. The sentinel errors are declared
outside the three source files; the spec quotes "teleportation not exist" for
`TeleportationNotExistError` and the text of `TransportNotExistError` is written alike.
The message of `fmt.Errorf(format)` is the rendering `sprintf format` of the format string
with no operands, which is the format itself when it holds no `%` verb. -/
def Err.Error (sprintf : String → String) : Err → String
  | .TransportNotExistError => "transport not exist"
  | .TeleportationNotExistError => "teleportation not exist"
  | .Errorf format => sprintf format
  | .other text => text

inductive MessageType where
  | MESSAGE_TYPE_REQUEST
  | MESSAGE_TYPE_RESPONSE
  deriving DecidableEq, Repr

/-- Modelled from the spec: the message envelope
`{ type, method, correlationID, peerID, error }` (declared outside the three source files).
`Session` is the correlation ID. -/
structure Message where
  PeerID : String
  Kind : MessageType
  Session : Nat
  Method : String
  Error : String
  deriving DecidableEq, Repr

structure NewTeleportationRequest where
  Message : Message
  Name : String
  LocalNetwork : String
  LocalAddress : String
  RemoteNetwork : String
  RemoteAddress : String
  deriving DecidableEq, Repr

structure DoTeleportRequest where
  Message : Message
  Name : String
  Label : String
  deriving DecidableEq, Repr

structure CloseTeleportationRequest where
  Message : Message
  Name : String
  deriving DecidableEq, Repr

/-- What `doRequest` can carry: one of the three request shapes. -/
inductive Request where
  | newTeleportation (r : NewTeleportationRequest)
  | doTeleport (r : DoTeleportRequest)
  | closeTeleportation (r : CloseTeleportationRequest)
  deriving DecidableEq, Repr

inductive TransportState where
  | TransportStateConnecting
  | TransportStateConnected
  | TransportStateFailed
  | TransportStateClosed
  deriving DecidableEq, Repr

/-- Modelled from the spec: a transport is the connection to one peer and exposes that
peer's identifier through `PeerID()`. -/
structure Transport where
  PeerID : String
  deriving DecidableEq, Repr

inductive Role where
  | source
  | sink
  deriving DecidableEq, Repr

/-- Modelled from the spec: a tunnel half (`teleportation.Teleportation`) through the
accessors the control plane uses: `Name()`, `Source()`, `Sink()`, `Transport()`.
For a source half built by `NewTeleportation`, `lis` is the listener that its close and
error handlers capture together with `lisCloseOnce`. -/
structure Teleportation where
  role : Role
  Name : String
  Source : Addr
  Sink : Addr
  Transport : Transport
  lis : Option Nat
  deriving DecidableEq, Repr

/-- A listener opened by `net.Listen` in `NewTeleportation`, with the state of the
`sync.Once` that guards `lisCloser` and of the accept-loop goroutine. -/
structure Listener where
  addr : Addr
  closeCount : Nat
  lisCloseOnce : Bool
  accepting : Bool
  dialRequestsOpen : Bool
  deriving DecidableEq, Repr

/-- The callbacks the control plane subscribes to a transport state. -/
inductive HandlerFn where
  | done
  | closeTeleportation (ts : Teleportation)
  deriving DecidableEq, Repr

structure StateHandler where
  peer : String
  state : TransportState
  hid : Nat
  fn : HandlerFn
  deriving DecidableEq, Repr

/-- Effects visible outside the node, in the order they happen. `call` marks the entry
into a method and carries no effect of its own. -/
inductive Event where
  | call (method : String)
  | doRequest (peerID : String) (req : Request) (out : Except Err Message)
  | sendMessage (dc : Nat) (msg : Message)
  | NewTransport (peerID : String)
  | wait (peerID : String)
  | Listen (network : String) (address : String)
  | lisClose (lis : Nat)
  | NewTeleportationSource (name : String)
  | NewTeleportationSink (name : String)
  | OnTransportState (peerID : String) (state : TransportState) (hid : Nat)
  | UnsetOnTransportState (peerID : String) (state : TransportState) (hid : Nat)
  | OnDoTeleport (name : String) (label : String)
  | goClose (ts : Teleportation)

/-- The node: its transports, the two registries (Go maps keyed by name, kept as
association lists), the listeners it opened, the transport-state subscriptions, the
counters for fresh correlation IDs and handles, the goroutines started to close a half,
and the log of effects. -/
structure Meepo where
  id : String
  transports : List String
  teleportationSources : List (String × Teleportation)
  teleportationSinks : List (String × Teleportation)
  listeners : List Listener
  handlers : List StateHandler
  nextSession : Nat
  nextHandle : Nat
  background : List Teleportation
  log : List Event

/-- The option map (`objx.Map`) of `Teleport` and `NewTeleportation`, with the two keys
the code reads: `"local"` and `"name"`. -/
structure Options where
  laddr : Option Addr
  name : Option String
  deriving DecidableEq, Repr

/-- A functional option: a function applied to the option map. -/
abbrev OFN := Options → Options

/-- Modelled from the spec: the option that overrides the local address. -/
def WithLocalAddress (a : Addr) : OFN := fun o => { o with laddr := some a }

/-- Modelled from the spec: the option that overrides the tunnel name. -/
def WithName (n : String) : OFN := fun o => { o with name := some n }

inductive GetOrder where
  | SourceFirst
  | SinkFirst
  deriving DecidableEq, Repr

/-- Everything the node reads from outside itself. `none` in an `Option Err` means the
call returned a nil error. -/
structure Env where
  Sprintf : String → String
  doRequest : String → Request → Except Err Message
  NewTransport : String → Option Err
  checkAddrIsListenable : Addr → Except Err Addr
  getListenableAddr : Addr
  Listen : String → String → Option Err
  NewTeleportationSource : String → Addr → Addr → Transport → Option Err
  NewTeleportationSink : String → Addr → Addr → Transport → Option Err
  resolveTeleportationSourceAddr : String → String → Except Err Addr
  resolveTeleportationSinkAddr : String → String → Except Err Addr
  OnDoTeleport : Teleportation → String → Option Err

/-! ## Helpers of the package that live outside the three source files -/

def logEv (mp : Meepo) (e : Event) : Meepo :=
  { mp with log := mp.log ++ [e] }

/-- Modelled from the spec: `getTransport(peerID)` looks the transport to that peer up and
fails with `TransportNotExistError` when there is none. -/
def getTransport (mp : Meepo) (peerID : String) : Except Err Transport :=
  if peerID ∈ mp.transports then .ok ⟨peerID⟩ else .error .TransportNotExistError

/-- Modelled from the spec: `add{Source,Sink}(name, half)` on a name-keyed map. -/
def regAdd (m : List (String × Teleportation)) (name : String) (ts : Teleportation) :
    List (String × Teleportation) :=
  m.filter (fun kv => kv.1 ≠ name) ++ [(name, ts)]

/-- Modelled from the spec: `remove{Source,Sink}(name)` on a name-keyed map. -/
def regRemove (m : List (String × Teleportation)) (name : String) :
    List (String × Teleportation) :=
  m.filter (fun kv => kv.1 ≠ name)

/-- Modelled from the spec: `get{Source,Sink}(name) → (half, found)`. -/
def regGet (m : List (String × Teleportation)) (name : String) : Option Teleportation :=
  (m.find? (fun kv => kv.1 = name)).map Prod.snd

def addTeleportationSource (mp : Meepo) (name : String) (ts : Teleportation) : Meepo :=
  { mp with teleportationSources := regAdd mp.teleportationSources name ts }

def addTeleportationSink (mp : Meepo) (name : String) (ts : Teleportation) : Meepo :=
  { mp with teleportationSinks := regAdd mp.teleportationSinks name ts }

def removeTeleportationSource (mp : Meepo) (name : String) : Meepo :=
  { mp with teleportationSources := regRemove mp.teleportationSources name }

def removeTeleportationSink (mp : Meepo) (name : String) : Meepo :=
  { mp with teleportationSinks := regRemove mp.teleportationSinks name }

def getTeleportationSource (mp : Meepo) (name : String) : Option Teleportation :=
  regGet mp.teleportationSources name

def getTeleportationSink (mp : Meepo) (name : String) : Option Teleportation :=
  regGet mp.teleportationSinks name

/-- Modelled from the spec: `GetTeleportation(name, order)` searches one map then the
other and returns `TeleportationNotExistError` if the name is in neither. -/
def GetTeleportation (mp : Meepo) (name : String) (order : GetOrder) :
    Except Err Teleportation :=
  match order with
  | .SourceFirst =>
    match getTeleportationSource mp name with
    | some ts => .ok ts
    | none =>
      match getTeleportationSink mp name with
      | some ts => .ok ts
      | none => .error .TeleportationNotExistError
  | .SinkFirst =>
    match getTeleportationSink mp name with
    | some ts => .ok ts
    | none =>
      match getTeleportationSource mp name with
      | some ts => .ok ts
      | none => .error .TeleportationNotExistError

/-- Modelled from the spec: `listByPeerID(peerID)` filters the source registry by the
peer identity of each half's transport. -/
def listTeleportationsByPeerID (mp : Meepo) (peerID : String) :
    Except Err (List Teleportation) :=
  .ok ((mp.teleportationSources.map Prod.snd).filter (fun ts => ts.Transport.PeerID = peerID))

/-- Modelled from the spec: `createRequest(method)` stamps a fresh correlation ID, the
method name and the local peer identity. -/
def createRequest (mp : Meepo) (method : String) : Message × Meepo :=
  ({ PeerID := mp.id, Kind := .MESSAGE_TYPE_REQUEST, Session := mp.nextSession,
     Method := method, Error := "" },
   { mp with nextSession := mp.nextSession + 1 })

/-- Modelled from the spec: `invertMessage` builds the response of a request: same
correlation ID, swapped direction, no error text. -/
def invertMessage (mp : Meepo) (req : Message) : Message :=
  { PeerID := mp.id, Kind := .MESSAGE_TYPE_RESPONSE, Session := req.Session,
    Method := req.Method, Error := "" }

/-- Modelled from the spec: `invertMessageWithError` builds the response of a request
carrying the error text. -/
def invertMessageWithError (env : Env) (mp : Meepo) (req : Message) (err : Err) : Message :=
  { invertMessage mp req with Error := err.Error env.Sprintf }

/-- Modelled from the spec: `sendMessage` writes a message to a data channel without
waiting. -/
def sendMessage (mp : Meepo) (dc : Nat) (msg : Message) : Meepo :=
  logEv mp (.sendMessage dc msg)

/-- Modelled from the spec: `doRequest(peerID, req)` sends the request and returns the
response with the same correlation ID, or fails locally. -/
def doRequest (env : Env) (mp : Meepo) (peerID : String) (req : Request) :
    Except Err Message × Meepo :=
  (env.doRequest peerID req, logEv mp (.doRequest peerID req (env.doRequest peerID req)))

/-- Modelled from the spec: `OnTransportState(state, callback)` subscribes the callback and
returns a fresh handle, here `mp.nextHandle`. -/
def OnTransportState (mp : Meepo) (tp : Transport) (state : TransportState) (fn : HandlerFn) :
    Meepo :=
  { logEv mp (.OnTransportState tp.PeerID state mp.nextHandle) with
    handlers := mp.handlers ++ [⟨tp.PeerID, state, mp.nextHandle, fn⟩]
    nextHandle := mp.nextHandle + 1 }

/-- Modelled from the spec: `UnsetOnTransportState(state, handle)` drops the subscription
with that handle. -/
def UnsetOnTransportState (mp : Meepo) (tp : Transport) (state : TransportState) (hid : Nat) :
    Meepo :=
  { logEv mp (.UnsetOnTransportState tp.PeerID state hid) with
    handlers := mp.handlers.filter
      (fun h => ¬ (h.peer = tp.PeerID ∧ h.state = state ∧ h.hid = hid)) }

/-- The state after `net.Listen` succeeded: a new listener, named by its position. -/
def openListener (mp : Meepo) (a : Addr) : Meepo :=
  { logEv mp (.Listen a.network a.text) with
    listeners := mp.listeners ++
      [{ addr := a, closeCount := 0, lisCloseOnce := false, accepting := false,
         dialRequestsOpen := true }] }

/-- The statement `go func() { ... lis.Accept() ... }()`: the accept loop of listener `lis`
is running. -/
def goAcceptLoop (mp : Meepo) (lis : Nat) : Meepo :=
  match mp.listeners[lis]? with
  | some l => { mp with listeners := mp.listeners.set lis { l with accepting := true } }
  | none => mp

/-! ## `new_teleportation.go` -/

def newNewTeleportationOption : Options :=
  { laddr := none, name := none }

/-- The closure `lisCloser`: `lis.Close()`. -/
def lisCloser (mp : Meepo) (lis : Nat) : Meepo :=
  match mp.listeners[lis]? with
  | some l =>
    { logEv mp (.lisClose lis) with
      listeners := mp.listeners.set lis { l with closeCount := l.closeCount + 1 } }
  | none => mp

/-- The statement `lisCloseOnce.Do(lisCloser)`: runs `lisCloser` the first time only. -/
def lisCloseOnceDo (mp : Meepo) (lis : Nat) : Meepo :=
  match mp.listeners[lis]? with
  | some l =>
    if l.lisCloseOnce then mp
    else lisCloser { mp with listeners := mp.listeners.set lis { l with lisCloseOnce := true } } lis
  | none => mp

/-- The end of the accept-loop goroutine: `lis.Accept()` returned an error, the deferred
`lisCloseOnce.Do(lisCloser)` runs and then the deferred `close(dialRequests)`. A goroutine
that already ended does nothing. -/
def acceptLoopExit (mp : Meepo) (lis : Nat) : Meepo :=
  match mp.listeners[lis]? with
  | some l =>
    if l.accepting then
      let mp1 := lisCloseOnceDo mp lis
      match mp1.listeners[lis]? with
      | some l1 =>
        { mp1 with
          listeners := mp1.listeners.set lis { l1 with accepting := false, dialRequestsOpen := false } }
      | none => mp1
    else mp
  | none => mp

/-- The closure passed to `teleportation.WithOnCloseHandler` for a source half. -/
def sourceOnCloseHandler (mp : Meepo) (ts : Teleportation) : Meepo :=
  let mp1 := removeTeleportationSource mp ts.Name
  match ts.lis with
  | some lis => lisCloseOnceDo mp1 lis
  | none => mp1

/-- The closure passed to `teleportation.WithOnErrorHandler` for a source half. -/
def sourceOnErrorHandler (mp : Meepo) (ts : Teleportation) (_err : Err) : Meepo :=
  let mp1 := removeTeleportationSource mp ts.Name
  match ts.lis with
  | some lis => lisCloseOnceDo mp1 lis
  | none => mp1

/-- The closure passed to `teleportation.WithDoTeleportFunc`: one `doTeleport` round
trip. `none` is the nil error. -/
def doTeleportFunc (env : Env) (mp : Meepo) (id : String) (name : String) (label : String) :
    Option Err × Meepo :=
  match createRequest mp "doTeleport" with
  | (msg, mp1) =>
    let req : DoTeleportRequest := { Message := msg, Name := name, Label := label }
    let mp2 := logEv mp1 (.doRequest id (.doTeleport req) (env.doRequest id (.doTeleport req)))
    match env.doRequest id (.doTeleport req) with
    | .error err => (some err, mp2)
    | .ok res =>
      if res.Error ≠ "" then (some (.Errorf res.Error), mp2)
      else (none, mp2)

/-- Lines 62 to 69 of `NewTeleportation`: the local address is the checked `"local"`
option when there is one and `getListenableAddr()` otherwise. -/
def localAddress (env : Env) (o : Options) : Except Err Addr :=
  match o.laddr with
  | some l => env.checkAddrIsListenable l
  | none => .ok env.getListenableAddr

/-- Lines 75 to 78 of `NewTeleportation`: when the `"name"` option is nil it is set to
`fmt.Sprintf("%s:%s", remote.Network(), remote.String())`; the name is then read back
with `cast.ToString`. -/
def tunnelName (remote : Addr) (o : Options) : String :=
  let o1 : Options :=
    if o.name = none then { o with name := some (remote.network ++ ":" ++ remote.text) } else o
  o1.name.getD ""

def NewTeleportation (env : Env) (mp : Meepo) (id : String) (remote : Addr) (opts : List OFN) :
    Except Err Teleportation × Meepo :=
  let mp0 := logEv mp (.call "NewTeleportation")
  let o := opts.foldl (fun o opt => opt o) newNewTeleportationOption
  match localAddress env o with
  | .error err => (.error err, mp0)
  | .ok laddr =>
    let name := tunnelName remote o
    let msg := (createRequest mp0 "newTeleportation").1
    let mp1 := (createRequest mp0 "newTeleportation").2
    let req : NewTeleportationRequest :=
      { Message := msg, Name := name, LocalNetwork := laddr.network, LocalAddress := laddr.text,
        RemoteNetwork := remote.network, RemoteAddress := remote.text }
    let mp2 := (doRequest env mp1 id (.newTeleportation req)).2
    match (doRequest env mp1 id (.newTeleportation req)).1 with
    | .error err => (.error err, mp2)
    | .ok res =>
      if res.Error ≠ "" then (.error (.Errorf res.Error), mp2)
      else
        match getTransport mp2 id with
        | .error err => (.error err, mp2)
        | .ok tp =>
          match env.Listen laddr.network laddr.text with
          | some err => (.error err, mp2)
          | none =>
            let lis := mp2.listeners.length
            let mp3 := goAcceptLoop (openListener mp2 laddr) lis
            let mp4 := logEv mp3 (.NewTeleportationSource name)
            match env.NewTeleportationSource name laddr remote tp with
            | some err => (.error err, mp4)
            | none =>
              let ts : Teleportation :=
                { role := .source, Name := name, Source := laddr, Sink := remote,
                  Transport := tp, lis := some lis }
              let mp5 := OnTransportState mp4 tp .TransportStateFailed (.closeTeleportation ts)
              let mp6 := addTeleportationSource mp5 ts.Name ts
              (.ok ts, mp6)

/-- The closure passed to `teleportation.WithOnCloseHandler` for a sink half. -/
def sinkOnCloseHandler (mp : Meepo) (ts : Teleportation) : Meepo :=
  removeTeleportationSink mp ts.Name

/-- The closure passed to `teleportation.WithOnErrorHandler` for a sink half. -/
def sinkOnErrorHandler (mp : Meepo) (ts : Teleportation) (_err : Err) : Meepo :=
  removeTeleportationSink mp ts.Name

def onNewTeleportation (env : Env) (mp : Meepo) (dc : Nat) (req : NewTeleportationRequest) :
    Meepo :=
  match getTransport mp req.Message.PeerID with
  | .error err => sendMessage mp dc (invertMessageWithError env mp req.Message err)
  | .ok tp =>
    match env.resolveTeleportationSourceAddr req.LocalNetwork req.LocalAddress with
    | .error err => sendMessage mp dc (invertMessageWithError env mp req.Message err)
    | .ok source =>
      match env.resolveTeleportationSinkAddr req.RemoteNetwork req.RemoteAddress with
      | .error err => sendMessage mp dc (invertMessageWithError env mp req.Message err)
      | .ok sink =>
        let mp1 := logEv mp (.NewTeleportationSink req.Name)
        match env.NewTeleportationSink req.Name source sink tp with
        | some err => sendMessage mp1 dc (invertMessageWithError env mp1 req.Message err)
        | none =>
          let ts : Teleportation :=
            { role := .sink, Name := req.Name, Source := source, Sink := sink,
              Transport := tp, lis := none }
          let mp2 := OnTransportState mp1 tp .TransportStateFailed (.closeTeleportation ts)
          let mp3 := addTeleportationSink mp2 ts.Name ts
          sendMessage mp3 dc (invertMessage mp3 req.Message)

def onDoTeleport (env : Env) (mp : Meepo) (dc : Nat) (req : DoTeleportRequest) : Meepo :=
  match getTeleportationSink mp req.Name with
  | none =>
    sendMessage mp dc (invertMessageWithError env mp req.Message .TeleportationNotExistError)
  | some ts =>
    let mp1 := logEv mp (.OnDoTeleport ts.Name req.Label)
    match env.OnDoTeleport ts req.Label with
    | some err => sendMessage mp1 dc (invertMessageWithError env mp1 req.Message err)
    | none => sendMessage mp1 dc (invertMessage mp1 req.Message)

/-! ## `close_teleportation.go` -/

/-- The statement `go func() { ... tp.Close() ... }()`: a goroutine that will close the
half is started; nothing of its outcome reaches the caller. -/
def goClose (mp : Meepo) (ts : Teleportation) : Meepo :=
  { logEv mp (.goClose ts) with background := mp.background ++ [ts] }

def CloseTeleportation (env : Env) (mp : Meepo) (name : String) : Option Err × Meepo :=
  match GetTeleportation mp name .SourceFirst with
  | .error err => (some err, mp)
  | .ok tp =>
    let msg := (createRequest mp "closeTeleportation").1
    let mp1 := (createRequest mp "closeTeleportation").2
    let req : CloseTeleportationRequest := { Message := msg, Name := name }
    let mp2 := (doRequest env mp1 tp.Transport.PeerID (.closeTeleportation req)).2
    match (doRequest env mp1 tp.Transport.PeerID (.closeTeleportation req)).1 with
    | .error err => (some err, mp2)
    | .ok res =>
      if res.Error ≠ "" then (some (.Errorf res.Error), mp2)
      else (none, goClose mp2 tp)

def onCloseTeleportation (env : Env) (mp : Meepo) (dc : Nat) (req : CloseTeleportationRequest) :
    Meepo :=
  match GetTeleportation mp req.Name .SinkFirst with
  | .error err => sendMessage mp dc (invertMessageWithError env mp req.Message err)
  | .ok ts =>
    let mp1 := goClose mp ts
    sendMessage mp1 dc (invertMessage mp1 req.Message)

/-! ## `teleport.go` -/

def newTeleportOptions : Options :=
  { laddr := none, name := none }

/-- Modelled from the spec: `NewTransport(peerID)` creates the transport to the peer; on
success the node has a transport for `peerID`. -/
def addTransport (mp : Meepo) (peerID : String) : Meepo :=
  { logEv mp (.NewTransport peerID) with transports := mp.transports ++ [peerID] }

/-- The test of the dedup loop of `Teleport`: the half's `Sink()` has the same `Network()`
and the same `String()` as `remote`. -/
def sameAddr (remote : Addr) (ts : Teleportation) : Prop :=
  ts.Sink.network = remote.network ∧ ts.Sink.text = remote.text

instance (remote : Addr) (ts : Teleportation) : Decidable (sameAddr remote ts) :=
  inferInstanceAs (Decidable (_ ∧ _))

/-- The slice `ntOpts` that `Teleport` builds from its own option map and hands to
`NewTeleportation`. -/
def ntOpts (o : Options) : List OFN :=
  (match o.laddr with
    | some l => [WithLocalAddress l]
    | none => []) ++
  (match o.name with
    | some n => [WithName n]
    | none => [])

/-- Lines 55 to 82 of `Teleport`: the dedup against the listed halves and the delegation
to `NewTeleportation`. -/
def teleportBody (env : Env) (mp : Meepo) (peerID : String) (remote : Addr) (o : Options) :
    Except Err Addr × Meepo :=
  match listTeleportationsByPeerID mp peerID with
  | .error err => (.error err, mp)
  | .ok tss =>
    match tss.find? (fun ts => sameAddr remote ts) with
    | some ts => (.ok ts.Source, mp)
    | none =>
      match (NewTeleportation env mp peerID remote (ntOpts o)).1 with
      | .error err => (.error err, (NewTeleportation env mp peerID remote (ntOpts o)).2)
      | .ok ts => (.ok ts.Source, (NewTeleportation env mp peerID remote (ntOpts o)).2)

def Teleport (env : Env) (mp : Meepo) (peerID : String) (remote : Addr) (opts : List OFN) :
    Except Err Addr × Meepo :=
  let o := opts.foldl (fun o opt => opt o) newTeleportOptions
  match getTransport mp peerID with
  | .error err =>
    if err ≠ .TransportNotExistError then (.error err, mp)
    else
      match env.NewTransport peerID with
      | some err1 => (.error err1, mp)
      | none =>
        let tp : Transport := ⟨peerID⟩
        let mp1 := addTransport mp peerID
        let h1 := mp1.nextHandle
        let mp2 := OnTransportState mp1 tp .TransportStateConnected .done
        let h2 := mp2.nextHandle
        let mp3 := OnTransportState mp2 tp .TransportStateFailed .done
        let h3 := mp3.nextHandle
        let mp4 := OnTransportState mp3 tp .TransportStateClosed .done
        let mp5 := logEv mp4 (.wait peerID)
        let r := teleportBody env mp5 peerID remote o
        (r.1,
         UnsetOnTransportState
           (UnsetOnTransportState
             (UnsetOnTransportState r.2 tp .TransportStateClosed h3)
             tp .TransportStateFailed h2)
           tp .TransportStateConnected h1)
  | .ok _ => teleportBody env mp peerID remote o

/-! ## Reading the log -/

/-- The effects a step added to the log. -/
def newEvents (before after : Meepo) : List Event :=
  after.log.drop before.log.length

def Event.isCall (method : String) : Event → Bool
  | .call m => m = method
  | _ => false

def Event.isRequest : Event → Bool
  | .doRequest _ _ _ => true
  | _ => false

def Event.isListen : Event → Bool
  | .Listen _ _ => true
  | _ => false

def Event.isConstruct : Event → Bool
  | .NewTeleportationSource _ => true
  | .NewTeleportationSink _ => true
  | _ => false

def Event.isSubscribe : Event → Bool
  | .OnTransportState _ _ _ => true
  | _ => false

def Event.isOnDoTeleport : Event → Bool
  | .OnDoTeleport _ _ => true
  | _ => false

def Event.isGoClose : Event → Bool
  | .goClose _ => true
  | _ => false

/-! ## Sample nodes and environments -/

def tcpRemote : Addr := ⟨"tcp", "10.0.0.5:9000"⟩

def tcpLocal : Addr := ⟨"tcp", "127.0.0.1:0"⟩

/-- A world in which every outside call succeeds and the peer accepts every request. -/
def envOK : Env where
  Sprintf := fun s => s
  doRequest := fun _ _ => .ok ⟨"B", .MESSAGE_TYPE_RESPONSE, 0, "", ""⟩
  NewTransport := fun _ => none
  checkAddrIsListenable := fun a => .ok a
  getListenableAddr := tcpLocal
  Listen := fun _ _ => none
  NewTeleportationSource := fun _ _ _ _ => none
  NewTeleportationSink := fun _ _ _ _ => none
  resolveTeleportationSourceAddr := fun n a => .ok ⟨n, a⟩
  resolveTeleportationSinkAddr := fun n a => .ok ⟨n, a⟩
  OnDoTeleport := fun _ _ => none

/-- Node `A` with a transport to peer `B` and nothing else. -/
def nodeA : Meepo where
  id := "A"
  transports := ["B"]
  teleportationSources := []
  teleportationSinks := []
  listeners := []
  handlers := []
  nextSession := 0
  nextHandle := 0
  background := []
  log := []

/-- A source half of node `A` to `tcpRemote` on peer `B`. -/
def halfB : Teleportation where
  role := .source
  Name := "web"
  Source := tcpLocal
  Sink := tcpRemote
  Transport := ⟨"B"⟩
  lis := some 0

/-- Node `A` holding `halfB` in its source registry. -/
def nodeAweb : Meepo :=
  { nodeA with teleportationSources := [("web", halfB)] }

/-- The tunnel names carried by the `newTeleportation` requests of a log. -/
def requestNames : List Event → List String
  | [] => []
  | .doRequest _ (.newTeleportation r) _ :: evs => r.Name :: requestNames evs
  | _ :: evs => requestNames evs

/-- A world like `envOK` in which constructing a source half fails. -/
def envNoSource : Env :=
  { envOK with NewTeleportationSource := fun _ _ _ _ => some (.other "new teleportation source") }

/-! ## Teardown of a source half -/

/-- The three places of `NewTeleportation` that run `lisCloseOnce.Do(lisCloser)`: the
on-close handler, the on-error handler and the end of the accept loop. -/
inductive Trigger where
  | onClose
  | onError (err : Err)
  | acceptLoopExit
  deriving DecidableEq, Repr

def Trigger.isHandler : Trigger → Bool
  | .onClose => true
  | .onError _ => true
  | .acceptLoopExit => false

/-- One firing of a teardown trigger of the source half `ts`. -/
def fire (ts : Teleportation) (mp : Meepo) : Trigger → Meepo
  | .onClose => sourceOnCloseHandler mp ts
  | .onError err => sourceOnErrorHandler mp ts err
  | .acceptLoopExit =>
    match ts.lis with
    | some lis => acceptLoopExit mp lis
    | none => mp

/-- A sequence of firings, in order. -/
def fireAll (ts : Teleportation) (mp : Meepo) (trs : List Trigger) : Meepo :=
  trs.foldl (fire ts) mp

/-- The number of `lis.Close()` calls made on listener `lis`, `none` if there is no such
listener. -/
def closeCountOf (mp : Meepo) (lis : Nat) : Option Nat :=
  (mp.listeners[lis]?).map Listener.closeCount

/-- The state of a listener between `NewTeleportation` and the end of its teardown: either
nothing fired yet and the accept loop runs, or `lisCloseOnce` fired and `lis.Close()` ran
once. -/
def Listener.guarded (l : Listener) : Prop :=
  (l.lisCloseOnce = false ∧ l.closeCount = 0 ∧ l.accepting = true) ∨
  (l.lisCloseOnce = true ∧ l.closeCount = 1)

/-- The half that `NewTeleportation("B", tcp 10.0.0.5:9000)` creates on `nodeA`. -/
def firstHalf : Teleportation where
  role := .source
  Name := "tcp:10.0.0.5:9000"
  Source := tcpLocal
  Sink := tcpRemote
  Transport := ⟨"B"⟩
  lis := some 0

/-- The half that the same call creates once `firstHalf` was torn down: same name, next
listener. -/
def secondHalf : Teleportation :=
  { firstHalf with lis := some 1 }

/-- Node `A` after `NewTeleportation("B", tcp 10.0.0.5:9000)`. -/
def nodeA1 : Meepo := (NewTeleportation envOK nodeA "B" tcpRemote []).2

/-- Then the on-close handler of `firstHalf` fires. -/
def nodeA2 : Meepo := fire firstHalf nodeA1 .onClose

/-- Then the same tunnel is created again. -/
def nodeA3 : Meepo := (NewTeleportation envOK nodeA2 "B" tcpRemote []).2

/-- Then the on-error handler of `firstHalf` fires. -/
def nodeA4 : Meepo := fire firstHalf nodeA3 (.onError (.other "use of closed connection"))

/-- A world like `envOK` whose peer answers every request with the error text "denied". -/
def envDenied : Env :=
  { envOK with doRequest := fun _ _ => .ok ⟨"B", .MESSAGE_TYPE_RESPONSE, 0, "", "denied"⟩ }

/-- A world like `envOK` that resolves `tcp` addresses only. -/
def envTcpOnly : Env :=
  { envOK with
    resolveTeleportationSourceAddr := fun n a =>
      if n = "tcp" then .ok ⟨n, a⟩ else .error (.other "unsupported network")
    resolveTeleportationSinkAddr := fun n a =>
      if n = "tcp" then .ok ⟨n, a⟩ else .error (.other "unsupported network") }

/-- A sink half named `"web"` on the transport to peer `B`. -/
def sinkB : Teleportation where
  role := .sink
  Name := "web"
  Source := tcpLocal
  Sink := tcpRemote
  Transport := ⟨"B"⟩
  lis := none

/-- Node `A` holding the name `"web"` in both registries. -/
def nodeAboth : Meepo :=
  { nodeA with teleportationSources := [("web", halfB)], teleportationSinks := [("web", sinkB)] }

/-- A `closeTeleportation` request of peer `B` for the tunnel `"web"`. -/
def closeWeb : CloseTeleportationRequest where
  Message := ⟨"B", .MESSAGE_TYPE_REQUEST, 41, "closeTeleportation", ""⟩
  Name := "web"

/-- A `doTeleport` request of peer `B` for the tunnel `"web"`. -/
def doWeb : DoTeleportRequest where
  Message := ⟨"B", .MESSAGE_TYPE_REQUEST, 42, "doTeleport", ""⟩
  Name := "web"
  Label := "stream-1"

/-- A `newTeleportation` request of peer `B` whose remote address is of a network kind
that `envTcpOnly` does not resolve. -/
def newBluetooth : NewTeleportationRequest where
  Message := ⟨"B", .MESSAGE_TYPE_REQUEST, 43, "newTeleportation", ""⟩
  Name := "bt"
  LocalNetwork := "tcp"
  LocalAddress := "127.0.0.1:0"
  RemoteNetwork := "bluetooth"
  RemoteAddress := "00:11:22:33:44:55"

/-- The same request stamped with the identity of a peer `Z` to which node `A` has no
transport. -/
def newBluetoothZ : NewTeleportationRequest :=
  { newBluetooth with Message := ⟨"Z", .MESSAGE_TYPE_REQUEST, 43, "newTeleportation", ""⟩ }

/-- Lines 81 to 88 of `NewTeleportation`: the `newTeleportation` request the call builds on
node `mp` for the option map `o` once the local address is `laddr`. -/
def newTeleportationRequest (mp : Meepo) (remote : Addr) (o : Options) (laddr : Addr) :
    NewTeleportationRequest :=
  { Message := (createRequest mp "newTeleportation").1, Name := tunnelName remote o,
    LocalNetwork := laddr.network, LocalAddress := laddr.text,
    RemoteNetwork := remote.network, RemoteAddress := remote.text }

/-- A world like `envOK` in which `net.Listen` fails. -/
def envNoListen : Env :=
  { envOK with Listen := fun _ _ => some (.other "address already in use") }

/-! ## `fmt.Errorf` with the text as format -/

/-- The flag characters of a `fmt` directive: `#`, `0`, `+`, `-` and the space. -/
def isFlag (c : Char) : Bool :=
  c = Char.ofNat 35 || c = Char.ofNat 48 || c = Char.ofNat 43 || c = Char.ofNat 45 ||
    c = Char.ofNat 32

/-- What Go's `fmt` writes for one directive when there is no operand, given the characters
after the `%`, and the characters left: flags, a decimal width and a `.` precision are
skipped, then `%` gives `%`, any other verb `v` gives `%!v(MISSING)` and a missing verb
gives `%!(NOVERB)`. The operand-taking forms `*` and `[n]` are not told apart from verbs. -/
def directive (cs : List Char) : List Char × List Char :=
  let cs1 := cs.dropWhile isFlag
  let cs2 := cs1.dropWhile Char.isDigit
  let cs3 :=
    match cs2 with
    | c :: rest => if c = '.' then rest.dropWhile Char.isDigit else cs2
    | [] => []
  match cs3 with
  | [] => ("%!(NOVERB)".toList, [])
  | v :: rest =>
    if v = '%' then (['%'], rest) else ("%!".toList ++ [v] ++ "(MISSING)".toList, rest)

/-- The rendering of a format, left to right, `fuel` bounding the number of steps. -/
def goSprintfAux : Nat → List Char → List Char
  | 0, _ => []
  | _ + 1, [] => []
  | fuel + 1, c :: cs =>
    if c = '%' then (directive cs).1 ++ goSprintfAux fuel (directive cs).2
    else c :: goSprintfAux fuel cs

/-- Go's `fmt.Sprintf(format)` with no operands; every step consumes a character, so the
length of the format is fuel enough. -/
def goSprintf (format : String) : String :=
  String.mk (goSprintfAux (format.length + 1) format.toList)

/-- A world like `envOK` that formats as Go does and whose peer answers every request with
the error text "50%d off". -/
def envPercent : Env :=
  { envOK with
    Sprintf := goSprintf
    doRequest := fun _ _ => .ok ⟨"B", .MESSAGE_TYPE_RESPONSE, 0, "", "50%d off"⟩ }

/-! ## Nodes after a first `Teleport` -/

/-- A world like `envOK` in which no new transport can be created. -/
def envNoTransport : Env :=
  { envOK with NewTransport := fun _ => some (.other "signaling down") }

/-- Node `A` after a first `Teleport("B", tcp 10.0.0.5:9000)`. -/
def nodeT1 : Meepo := (Teleport envNoTransport nodeA "B" tcpRemote []).2

/-- Then the transport to `B` is gone while the half is still registered. -/
def nodeGone : Meepo := { nodeT1 with transports := [] }

/-- Or then `NewTeleportation("B", tcp 10.0.0.5:9000, WithName("second"))` is called. -/
def nodeTwo : Meepo :=
  (NewTeleportation envNoTransport nodeT1 "B" tcpRemote [WithName "second"]).2

/-! ## Lemmas on lists and on the log -/

theorem find_first {α : Type} (p : α → Bool) (pre post : List α) (x : α)
    (hpre : ∀ y ∈ pre, p y = false) (hx : p x = true) :
    (pre ++ x :: post).find? p = some x := by
  induction pre with
  | nil => simp [List.find?, hx]
  | cons y ys ih =>
    have hy : p y = false := hpre y (List.mem_cons_self _ _)
    have hys : ∀ z ∈ ys, p z = false := fun z hz => hpre z (List.mem_cons_of_mem _ hz)
    simp [List.find?, hy, ih hys]

theorem find_none {α : Type} (p : α → Bool) (l : List α) (h : ∀ y ∈ l, p y = false) :
    l.find? p = none := by
  induction l with
  | nil => rfl
  | cons y ys ih =>
    have hy : p y = false := h y (List.mem_cons_self _ _)
    have hys : ∀ z ∈ ys, p z = false := fun z hz => h z (List.mem_cons_of_mem _ hz)
    simp [List.find?, hy, ih hys]

/-! ## How each helper acts on each field of the node -/

@[simp] theorem logEv_id (mp : Meepo) (e : Event) :
    (logEv mp e).id = mp.id := rfl

@[simp] theorem logEv_transports (mp : Meepo) (e : Event) :
    (logEv mp e).transports = mp.transports := rfl

@[simp] theorem logEv_teleportationSources (mp : Meepo) (e : Event) :
    (logEv mp e).teleportationSources = mp.teleportationSources := rfl

@[simp] theorem logEv_teleportationSinks (mp : Meepo) (e : Event) :
    (logEv mp e).teleportationSinks = mp.teleportationSinks := rfl

@[simp] theorem logEv_listeners (mp : Meepo) (e : Event) :
    (logEv mp e).listeners = mp.listeners := rfl

@[simp] theorem logEv_handlers (mp : Meepo) (e : Event) :
    (logEv mp e).handlers = mp.handlers := rfl

@[simp] theorem logEv_nextSession (mp : Meepo) (e : Event) :
    (logEv mp e).nextSession = mp.nextSession := rfl

@[simp] theorem logEv_nextHandle (mp : Meepo) (e : Event) :
    (logEv mp e).nextHandle = mp.nextHandle := rfl

@[simp] theorem logEv_background (mp : Meepo) (e : Event) :
    (logEv mp e).background = mp.background := rfl

@[simp] theorem logEv_log (mp : Meepo) (e : Event) :
    (logEv mp e).log = mp.log ++ [e] := rfl

@[simp] theorem addTeleportationSource_id (mp : Meepo) (name : String) (ts : Teleportation) :
    (addTeleportationSource mp name ts).id = mp.id := rfl

@[simp] theorem addTeleportationSource_transports (mp : Meepo) (name : String) (ts : Teleportation) :
    (addTeleportationSource mp name ts).transports = mp.transports := rfl

@[simp] theorem addTeleportationSource_teleportationSources (mp : Meepo) (name : String) (ts : Teleportation) :
    (addTeleportationSource mp name ts).teleportationSources = regAdd mp.teleportationSources name ts := rfl

@[simp] theorem addTeleportationSource_teleportationSinks (mp : Meepo) (name : String) (ts : Teleportation) :
    (addTeleportationSource mp name ts).teleportationSinks = mp.teleportationSinks := rfl

@[simp] theorem addTeleportationSource_listeners (mp : Meepo) (name : String) (ts : Teleportation) :
    (addTeleportationSource mp name ts).listeners = mp.listeners := rfl

@[simp] theorem addTeleportationSource_handlers (mp : Meepo) (name : String) (ts : Teleportation) :
    (addTeleportationSource mp name ts).handlers = mp.handlers := rfl

@[simp] theorem addTeleportationSource_nextSession (mp : Meepo) (name : String) (ts : Teleportation) :
    (addTeleportationSource mp name ts).nextSession = mp.nextSession := rfl

@[simp] theorem addTeleportationSource_nextHandle (mp : Meepo) (name : String) (ts : Teleportation) :
    (addTeleportationSource mp name ts).nextHandle = mp.nextHandle := rfl

@[simp] theorem addTeleportationSource_background (mp : Meepo) (name : String) (ts : Teleportation) :
    (addTeleportationSource mp name ts).background = mp.background := rfl

@[simp] theorem addTeleportationSource_log (mp : Meepo) (name : String) (ts : Teleportation) :
    (addTeleportationSource mp name ts).log = mp.log := rfl

@[simp] theorem addTeleportationSink_id (mp : Meepo) (name : String) (ts : Teleportation) :
    (addTeleportationSink mp name ts).id = mp.id := rfl

@[simp] theorem addTeleportationSink_transports (mp : Meepo) (name : String) (ts : Teleportation) :
    (addTeleportationSink mp name ts).transports = mp.transports := rfl

@[simp] theorem addTeleportationSink_teleportationSources (mp : Meepo) (name : String) (ts : Teleportation) :
    (addTeleportationSink mp name ts).teleportationSources = mp.teleportationSources := rfl

@[simp] theorem addTeleportationSink_teleportationSinks (mp : Meepo) (name : String) (ts : Teleportation) :
    (addTeleportationSink mp name ts).teleportationSinks = regAdd mp.teleportationSinks name ts := rfl

@[simp] theorem addTeleportationSink_listeners (mp : Meepo) (name : String) (ts : Teleportation) :
    (addTeleportationSink mp name ts).listeners = mp.listeners := rfl

@[simp] theorem addTeleportationSink_handlers (mp : Meepo) (name : String) (ts : Teleportation) :
    (addTeleportationSink mp name ts).handlers = mp.handlers := rfl

@[simp] theorem addTeleportationSink_nextSession (mp : Meepo) (name : String) (ts : Teleportation) :
    (addTeleportationSink mp name ts).nextSession = mp.nextSession := rfl

@[simp] theorem addTeleportationSink_nextHandle (mp : Meepo) (name : String) (ts : Teleportation) :
    (addTeleportationSink mp name ts).nextHandle = mp.nextHandle := rfl

@[simp] theorem addTeleportationSink_background (mp : Meepo) (name : String) (ts : Teleportation) :
    (addTeleportationSink mp name ts).background = mp.background := rfl

@[simp] theorem addTeleportationSink_log (mp : Meepo) (name : String) (ts : Teleportation) :
    (addTeleportationSink mp name ts).log = mp.log := rfl

@[simp] theorem removeTeleportationSource_id (mp : Meepo) (name : String) :
    (removeTeleportationSource mp name).id = mp.id := rfl

@[simp] theorem removeTeleportationSource_transports (mp : Meepo) (name : String) :
    (removeTeleportationSource mp name).transports = mp.transports := rfl

@[simp] theorem removeTeleportationSource_teleportationSources (mp : Meepo) (name : String) :
    (removeTeleportationSource mp name).teleportationSources = regRemove mp.teleportationSources name := rfl

@[simp] theorem removeTeleportationSource_teleportationSinks (mp : Meepo) (name : String) :
    (removeTeleportationSource mp name).teleportationSinks = mp.teleportationSinks := rfl

@[simp] theorem removeTeleportationSource_listeners (mp : Meepo) (name : String) :
    (removeTeleportationSource mp name).listeners = mp.listeners := rfl

@[simp] theorem removeTeleportationSource_handlers (mp : Meepo) (name : String) :
    (removeTeleportationSource mp name).handlers = mp.handlers := rfl

@[simp] theorem removeTeleportationSource_nextSession (mp : Meepo) (name : String) :
    (removeTeleportationSource mp name).nextSession = mp.nextSession := rfl

@[simp] theorem removeTeleportationSource_nextHandle (mp : Meepo) (name : String) :
    (removeTeleportationSource mp name).nextHandle = mp.nextHandle := rfl

@[simp] theorem removeTeleportationSource_background (mp : Meepo) (name : String) :
    (removeTeleportationSource mp name).background = mp.background := rfl

@[simp] theorem removeTeleportationSource_log (mp : Meepo) (name : String) :
    (removeTeleportationSource mp name).log = mp.log := rfl

@[simp] theorem removeTeleportationSink_id (mp : Meepo) (name : String) :
    (removeTeleportationSink mp name).id = mp.id := rfl

@[simp] theorem removeTeleportationSink_transports (mp : Meepo) (name : String) :
    (removeTeleportationSink mp name).transports = mp.transports := rfl

@[simp] theorem removeTeleportationSink_teleportationSources (mp : Meepo) (name : String) :
    (removeTeleportationSink mp name).teleportationSources = mp.teleportationSources := rfl

@[simp] theorem removeTeleportationSink_teleportationSinks (mp : Meepo) (name : String) :
    (removeTeleportationSink mp name).teleportationSinks = regRemove mp.teleportationSinks name := rfl

@[simp] theorem removeTeleportationSink_listeners (mp : Meepo) (name : String) :
    (removeTeleportationSink mp name).listeners = mp.listeners := rfl

@[simp] theorem removeTeleportationSink_handlers (mp : Meepo) (name : String) :
    (removeTeleportationSink mp name).handlers = mp.handlers := rfl

@[simp] theorem removeTeleportationSink_nextSession (mp : Meepo) (name : String) :
    (removeTeleportationSink mp name).nextSession = mp.nextSession := rfl

@[simp] theorem removeTeleportationSink_nextHandle (mp : Meepo) (name : String) :
    (removeTeleportationSink mp name).nextHandle = mp.nextHandle := rfl

@[simp] theorem removeTeleportationSink_background (mp : Meepo) (name : String) :
    (removeTeleportationSink mp name).background = mp.background := rfl

@[simp] theorem removeTeleportationSink_log (mp : Meepo) (name : String) :
    (removeTeleportationSink mp name).log = mp.log := rfl

@[simp] theorem createRequest_id (mp : Meepo) (method : String) :
    (createRequest mp method).2.id = mp.id := rfl

@[simp] theorem createRequest_transports (mp : Meepo) (method : String) :
    (createRequest mp method).2.transports = mp.transports := rfl

@[simp] theorem createRequest_teleportationSources (mp : Meepo) (method : String) :
    (createRequest mp method).2.teleportationSources = mp.teleportationSources := rfl

@[simp] theorem createRequest_teleportationSinks (mp : Meepo) (method : String) :
    (createRequest mp method).2.teleportationSinks = mp.teleportationSinks := rfl

@[simp] theorem createRequest_listeners (mp : Meepo) (method : String) :
    (createRequest mp method).2.listeners = mp.listeners := rfl

@[simp] theorem createRequest_handlers (mp : Meepo) (method : String) :
    (createRequest mp method).2.handlers = mp.handlers := rfl

@[simp] theorem createRequest_nextSession (mp : Meepo) (method : String) :
    (createRequest mp method).2.nextSession = mp.nextSession + 1 := rfl

@[simp] theorem createRequest_nextHandle (mp : Meepo) (method : String) :
    (createRequest mp method).2.nextHandle = mp.nextHandle := rfl

@[simp] theorem createRequest_background (mp : Meepo) (method : String) :
    (createRequest mp method).2.background = mp.background := rfl

@[simp] theorem createRequest_log (mp : Meepo) (method : String) :
    (createRequest mp method).2.log = mp.log := rfl

@[simp] theorem doRequest_id (env : Env) (mp : Meepo) (peerID : String) (req : Request) :
    (doRequest env mp peerID req).2.id = mp.id := rfl

@[simp] theorem doRequest_transports (env : Env) (mp : Meepo) (peerID : String) (req : Request) :
    (doRequest env mp peerID req).2.transports = mp.transports := rfl

@[simp] theorem doRequest_teleportationSources (env : Env) (mp : Meepo) (peerID : String) (req : Request) :
    (doRequest env mp peerID req).2.teleportationSources = mp.teleportationSources := rfl

@[simp] theorem doRequest_teleportationSinks (env : Env) (mp : Meepo) (peerID : String) (req : Request) :
    (doRequest env mp peerID req).2.teleportationSinks = mp.teleportationSinks := rfl

@[simp] theorem doRequest_listeners (env : Env) (mp : Meepo) (peerID : String) (req : Request) :
    (doRequest env mp peerID req).2.listeners = mp.listeners := rfl

@[simp] theorem doRequest_handlers (env : Env) (mp : Meepo) (peerID : String) (req : Request) :
    (doRequest env mp peerID req).2.handlers = mp.handlers := rfl

@[simp] theorem doRequest_nextSession (env : Env) (mp : Meepo) (peerID : String) (req : Request) :
    (doRequest env mp peerID req).2.nextSession = mp.nextSession := rfl

@[simp] theorem doRequest_nextHandle (env : Env) (mp : Meepo) (peerID : String) (req : Request) :
    (doRequest env mp peerID req).2.nextHandle = mp.nextHandle := rfl

@[simp] theorem doRequest_background (env : Env) (mp : Meepo) (peerID : String) (req : Request) :
    (doRequest env mp peerID req).2.background = mp.background := rfl

@[simp] theorem doRequest_log (env : Env) (mp : Meepo) (peerID : String) (req : Request) :
    (doRequest env mp peerID req).2.log = mp.log ++ [Event.doRequest peerID req (env.doRequest peerID req)] := rfl

@[simp] theorem sendMessage_id (mp : Meepo) (dc : Nat) (msg : Message) :
    (sendMessage mp dc msg).id = mp.id := rfl

@[simp] theorem sendMessage_transports (mp : Meepo) (dc : Nat) (msg : Message) :
    (sendMessage mp dc msg).transports = mp.transports := rfl

@[simp] theorem sendMessage_teleportationSources (mp : Meepo) (dc : Nat) (msg : Message) :
    (sendMessage mp dc msg).teleportationSources = mp.teleportationSources := rfl

@[simp] theorem sendMessage_teleportationSinks (mp : Meepo) (dc : Nat) (msg : Message) :
    (sendMessage mp dc msg).teleportationSinks = mp.teleportationSinks := rfl

@[simp] theorem sendMessage_listeners (mp : Meepo) (dc : Nat) (msg : Message) :
    (sendMessage mp dc msg).listeners = mp.listeners := rfl

@[simp] theorem sendMessage_handlers (mp : Meepo) (dc : Nat) (msg : Message) :
    (sendMessage mp dc msg).handlers = mp.handlers := rfl

@[simp] theorem sendMessage_nextSession (mp : Meepo) (dc : Nat) (msg : Message) :
    (sendMessage mp dc msg).nextSession = mp.nextSession := rfl

@[simp] theorem sendMessage_nextHandle (mp : Meepo) (dc : Nat) (msg : Message) :
    (sendMessage mp dc msg).nextHandle = mp.nextHandle := rfl

@[simp] theorem sendMessage_background (mp : Meepo) (dc : Nat) (msg : Message) :
    (sendMessage mp dc msg).background = mp.background := rfl

@[simp] theorem sendMessage_log (mp : Meepo) (dc : Nat) (msg : Message) :
    (sendMessage mp dc msg).log = mp.log ++ [Event.sendMessage dc msg] := rfl

@[simp] theorem OnTransportState_id (mp : Meepo) (tp : Transport) (state : TransportState) (fn : HandlerFn) :
    (OnTransportState mp tp state fn).id = mp.id := rfl

@[simp] theorem OnTransportState_transports (mp : Meepo) (tp : Transport) (state : TransportState) (fn : HandlerFn) :
    (OnTransportState mp tp state fn).transports = mp.transports := rfl

@[simp] theorem OnTransportState_teleportationSources (mp : Meepo) (tp : Transport) (state : TransportState) (fn : HandlerFn) :
    (OnTransportState mp tp state fn).teleportationSources = mp.teleportationSources := rfl

@[simp] theorem OnTransportState_teleportationSinks (mp : Meepo) (tp : Transport) (state : TransportState) (fn : HandlerFn) :
    (OnTransportState mp tp state fn).teleportationSinks = mp.teleportationSinks := rfl

@[simp] theorem OnTransportState_listeners (mp : Meepo) (tp : Transport) (state : TransportState) (fn : HandlerFn) :
    (OnTransportState mp tp state fn).listeners = mp.listeners := rfl

@[simp] theorem OnTransportState_handlers (mp : Meepo) (tp : Transport) (state : TransportState) (fn : HandlerFn) :
    (OnTransportState mp tp state fn).handlers = mp.handlers ++ [⟨tp.PeerID, state, mp.nextHandle, fn⟩] := rfl

@[simp] theorem OnTransportState_nextSession (mp : Meepo) (tp : Transport) (state : TransportState) (fn : HandlerFn) :
    (OnTransportState mp tp state fn).nextSession = mp.nextSession := rfl

@[simp] theorem OnTransportState_nextHandle (mp : Meepo) (tp : Transport) (state : TransportState) (fn : HandlerFn) :
    (OnTransportState mp tp state fn).nextHandle = mp.nextHandle + 1 := rfl

@[simp] theorem OnTransportState_background (mp : Meepo) (tp : Transport) (state : TransportState) (fn : HandlerFn) :
    (OnTransportState mp tp state fn).background = mp.background := rfl

@[simp] theorem OnTransportState_log (mp : Meepo) (tp : Transport) (state : TransportState) (fn : HandlerFn) :
    (OnTransportState mp tp state fn).log = mp.log ++ [Event.OnTransportState tp.PeerID state mp.nextHandle] := rfl

@[simp] theorem UnsetOnTransportState_id (mp : Meepo) (tp : Transport) (state : TransportState) (hid : Nat) :
    (UnsetOnTransportState mp tp state hid).id = mp.id := rfl

@[simp] theorem UnsetOnTransportState_transports (mp : Meepo) (tp : Transport) (state : TransportState) (hid : Nat) :
    (UnsetOnTransportState mp tp state hid).transports = mp.transports := rfl

@[simp] theorem UnsetOnTransportState_teleportationSources (mp : Meepo) (tp : Transport) (state : TransportState) (hid : Nat) :
    (UnsetOnTransportState mp tp state hid).teleportationSources = mp.teleportationSources := rfl

@[simp] theorem UnsetOnTransportState_teleportationSinks (mp : Meepo) (tp : Transport) (state : TransportState) (hid : Nat) :
    (UnsetOnTransportState mp tp state hid).teleportationSinks = mp.teleportationSinks := rfl

@[simp] theorem UnsetOnTransportState_listeners (mp : Meepo) (tp : Transport) (state : TransportState) (hid : Nat) :
    (UnsetOnTransportState mp tp state hid).listeners = mp.listeners := rfl

@[simp] theorem UnsetOnTransportState_handlers (mp : Meepo) (tp : Transport) (state : TransportState) (hid : Nat) :
    (UnsetOnTransportState mp tp state hid).handlers = mp.handlers.filter (fun h => ¬ (h.peer = tp.PeerID ∧ h.state = state ∧ h.hid = hid)) := rfl

@[simp] theorem UnsetOnTransportState_nextSession (mp : Meepo) (tp : Transport) (state : TransportState) (hid : Nat) :
    (UnsetOnTransportState mp tp state hid).nextSession = mp.nextSession := rfl

@[simp] theorem UnsetOnTransportState_nextHandle (mp : Meepo) (tp : Transport) (state : TransportState) (hid : Nat) :
    (UnsetOnTransportState mp tp state hid).nextHandle = mp.nextHandle := rfl

@[simp] theorem UnsetOnTransportState_background (mp : Meepo) (tp : Transport) (state : TransportState) (hid : Nat) :
    (UnsetOnTransportState mp tp state hid).background = mp.background := rfl

@[simp] theorem UnsetOnTransportState_log (mp : Meepo) (tp : Transport) (state : TransportState) (hid : Nat) :
    (UnsetOnTransportState mp tp state hid).log = mp.log ++ [Event.UnsetOnTransportState tp.PeerID state hid] := rfl

@[simp] theorem openListener_id (mp : Meepo) (a : Addr) :
    (openListener mp a).id = mp.id := rfl

@[simp] theorem openListener_transports (mp : Meepo) (a : Addr) :
    (openListener mp a).transports = mp.transports := rfl

@[simp] theorem openListener_teleportationSources (mp : Meepo) (a : Addr) :
    (openListener mp a).teleportationSources = mp.teleportationSources := rfl

@[simp] theorem openListener_teleportationSinks (mp : Meepo) (a : Addr) :
    (openListener mp a).teleportationSinks = mp.teleportationSinks := rfl

@[simp] theorem openListener_listeners (mp : Meepo) (a : Addr) :
    (openListener mp a).listeners = mp.listeners ++ [{ addr := a, closeCount := 0, lisCloseOnce := false, accepting := false, dialRequestsOpen := true }] := rfl

@[simp] theorem openListener_handlers (mp : Meepo) (a : Addr) :
    (openListener mp a).handlers = mp.handlers := rfl

@[simp] theorem openListener_nextSession (mp : Meepo) (a : Addr) :
    (openListener mp a).nextSession = mp.nextSession := rfl

@[simp] theorem openListener_nextHandle (mp : Meepo) (a : Addr) :
    (openListener mp a).nextHandle = mp.nextHandle := rfl

@[simp] theorem openListener_background (mp : Meepo) (a : Addr) :
    (openListener mp a).background = mp.background := rfl

@[simp] theorem openListener_log (mp : Meepo) (a : Addr) :
    (openListener mp a).log = mp.log ++ [Event.Listen a.network a.text] := rfl

@[simp] theorem goClose_id (mp : Meepo) (ts : Teleportation) :
    (goClose mp ts).id = mp.id := rfl

@[simp] theorem goClose_transports (mp : Meepo) (ts : Teleportation) :
    (goClose mp ts).transports = mp.transports := rfl

@[simp] theorem goClose_teleportationSources (mp : Meepo) (ts : Teleportation) :
    (goClose mp ts).teleportationSources = mp.teleportationSources := rfl

@[simp] theorem goClose_teleportationSinks (mp : Meepo) (ts : Teleportation) :
    (goClose mp ts).teleportationSinks = mp.teleportationSinks := rfl

@[simp] theorem goClose_listeners (mp : Meepo) (ts : Teleportation) :
    (goClose mp ts).listeners = mp.listeners := rfl

@[simp] theorem goClose_handlers (mp : Meepo) (ts : Teleportation) :
    (goClose mp ts).handlers = mp.handlers := rfl

@[simp] theorem goClose_nextSession (mp : Meepo) (ts : Teleportation) :
    (goClose mp ts).nextSession = mp.nextSession := rfl

@[simp] theorem goClose_nextHandle (mp : Meepo) (ts : Teleportation) :
    (goClose mp ts).nextHandle = mp.nextHandle := rfl

@[simp] theorem goClose_background (mp : Meepo) (ts : Teleportation) :
    (goClose mp ts).background = mp.background ++ [ts] := rfl

@[simp] theorem goClose_log (mp : Meepo) (ts : Teleportation) :
    (goClose mp ts).log = mp.log ++ [Event.goClose ts] := rfl

@[simp] theorem addTransport_id (mp : Meepo) (peerID : String) :
    (addTransport mp peerID).id = mp.id := rfl

@[simp] theorem addTransport_transports (mp : Meepo) (peerID : String) :
    (addTransport mp peerID).transports = mp.transports ++ [peerID] := rfl

@[simp] theorem addTransport_teleportationSources (mp : Meepo) (peerID : String) :
    (addTransport mp peerID).teleportationSources = mp.teleportationSources := rfl

@[simp] theorem addTransport_teleportationSinks (mp : Meepo) (peerID : String) :
    (addTransport mp peerID).teleportationSinks = mp.teleportationSinks := rfl

@[simp] theorem addTransport_listeners (mp : Meepo) (peerID : String) :
    (addTransport mp peerID).listeners = mp.listeners := rfl

@[simp] theorem addTransport_handlers (mp : Meepo) (peerID : String) :
    (addTransport mp peerID).handlers = mp.handlers := rfl

@[simp] theorem addTransport_nextSession (mp : Meepo) (peerID : String) :
    (addTransport mp peerID).nextSession = mp.nextSession := rfl

@[simp] theorem addTransport_nextHandle (mp : Meepo) (peerID : String) :
    (addTransport mp peerID).nextHandle = mp.nextHandle := rfl

@[simp] theorem addTransport_background (mp : Meepo) (peerID : String) :
    (addTransport mp peerID).background = mp.background := rfl

@[simp] theorem addTransport_log (mp : Meepo) (peerID : String) :
    (addTransport mp peerID).log = mp.log ++ [Event.NewTransport peerID] := rfl

@[simp] theorem goAcceptLoop_id (mp : Meepo) (lis : Nat) :
    (goAcceptLoop mp lis).id = mp.id := by
  unfold goAcceptLoop; split <;> rfl

@[simp] theorem goAcceptLoop_transports (mp : Meepo) (lis : Nat) :
    (goAcceptLoop mp lis).transports = mp.transports := by
  unfold goAcceptLoop; split <;> rfl

@[simp] theorem goAcceptLoop_teleportationSources (mp : Meepo) (lis : Nat) :
    (goAcceptLoop mp lis).teleportationSources = mp.teleportationSources := by
  unfold goAcceptLoop; split <;> rfl

@[simp] theorem goAcceptLoop_teleportationSinks (mp : Meepo) (lis : Nat) :
    (goAcceptLoop mp lis).teleportationSinks = mp.teleportationSinks := by
  unfold goAcceptLoop; split <;> rfl

@[simp] theorem goAcceptLoop_handlers (mp : Meepo) (lis : Nat) :
    (goAcceptLoop mp lis).handlers = mp.handlers := by
  unfold goAcceptLoop; split <;> rfl

@[simp] theorem goAcceptLoop_nextSession (mp : Meepo) (lis : Nat) :
    (goAcceptLoop mp lis).nextSession = mp.nextSession := by
  unfold goAcceptLoop; split <;> rfl

@[simp] theorem goAcceptLoop_nextHandle (mp : Meepo) (lis : Nat) :
    (goAcceptLoop mp lis).nextHandle = mp.nextHandle := by
  unfold goAcceptLoop; split <;> rfl

@[simp] theorem goAcceptLoop_background (mp : Meepo) (lis : Nat) :
    (goAcceptLoop mp lis).background = mp.background := by
  unfold goAcceptLoop; split <;> rfl

@[simp] theorem goAcceptLoop_log (mp : Meepo) (lis : Nat) :
    (goAcceptLoop mp lis).log = mp.log := by
  unfold goAcceptLoop; split <;> rfl

@[simp] theorem lisCloser_id (mp : Meepo) (lis : Nat) :
    (lisCloser mp lis).id = mp.id := by
  unfold lisCloser; split <;> rfl

@[simp] theorem lisCloser_transports (mp : Meepo) (lis : Nat) :
    (lisCloser mp lis).transports = mp.transports := by
  unfold lisCloser; split <;> rfl

@[simp] theorem lisCloser_teleportationSources (mp : Meepo) (lis : Nat) :
    (lisCloser mp lis).teleportationSources = mp.teleportationSources := by
  unfold lisCloser; split <;> rfl

@[simp] theorem lisCloser_teleportationSinks (mp : Meepo) (lis : Nat) :
    (lisCloser mp lis).teleportationSinks = mp.teleportationSinks := by
  unfold lisCloser; split <;> rfl

@[simp] theorem lisCloser_handlers (mp : Meepo) (lis : Nat) :
    (lisCloser mp lis).handlers = mp.handlers := by
  unfold lisCloser; split <;> rfl

@[simp] theorem lisCloser_nextSession (mp : Meepo) (lis : Nat) :
    (lisCloser mp lis).nextSession = mp.nextSession := by
  unfold lisCloser; split <;> rfl

@[simp] theorem lisCloser_nextHandle (mp : Meepo) (lis : Nat) :
    (lisCloser mp lis).nextHandle = mp.nextHandle := by
  unfold lisCloser; split <;> rfl

@[simp] theorem lisCloser_background (mp : Meepo) (lis : Nat) :
    (lisCloser mp lis).background = mp.background := by
  unfold lisCloser; split <;> rfl

@[simp] theorem lisCloseOnceDo_id (mp : Meepo) (lis : Nat) :
    (lisCloseOnceDo mp lis).id = mp.id := by
  unfold lisCloseOnceDo; split
  · split
    · rfl
    · simp
  · rfl

@[simp] theorem lisCloseOnceDo_transports (mp : Meepo) (lis : Nat) :
    (lisCloseOnceDo mp lis).transports = mp.transports := by
  unfold lisCloseOnceDo; split
  · split
    · rfl
    · simp
  · rfl

@[simp] theorem lisCloseOnceDo_teleportationSources (mp : Meepo) (lis : Nat) :
    (lisCloseOnceDo mp lis).teleportationSources = mp.teleportationSources := by
  unfold lisCloseOnceDo; split
  · split
    · rfl
    · simp
  · rfl

@[simp] theorem lisCloseOnceDo_teleportationSinks (mp : Meepo) (lis : Nat) :
    (lisCloseOnceDo mp lis).teleportationSinks = mp.teleportationSinks := by
  unfold lisCloseOnceDo; split
  · split
    · rfl
    · simp
  · rfl

@[simp] theorem lisCloseOnceDo_handlers (mp : Meepo) (lis : Nat) :
    (lisCloseOnceDo mp lis).handlers = mp.handlers := by
  unfold lisCloseOnceDo; split
  · split
    · rfl
    · simp
  · rfl

@[simp] theorem lisCloseOnceDo_nextSession (mp : Meepo) (lis : Nat) :
    (lisCloseOnceDo mp lis).nextSession = mp.nextSession := by
  unfold lisCloseOnceDo; split
  · split
    · rfl
    · simp
  · rfl

@[simp] theorem lisCloseOnceDo_nextHandle (mp : Meepo) (lis : Nat) :
    (lisCloseOnceDo mp lis).nextHandle = mp.nextHandle := by
  unfold lisCloseOnceDo; split
  · split
    · rfl
    · simp
  · rfl

@[simp] theorem lisCloseOnceDo_background (mp : Meepo) (lis : Nat) :
    (lisCloseOnceDo mp lis).background = mp.background := by
  unfold lisCloseOnceDo; split
  · split
    · rfl
    · simp
  · rfl

@[simp] theorem acceptLoopExit_id (mp : Meepo) (lis : Nat) :
    (acceptLoopExit mp lis).id = mp.id := by
  unfold acceptLoopExit; split
  · split
    · simp only []; split <;> simp
    · rfl
  · rfl

@[simp] theorem acceptLoopExit_transports (mp : Meepo) (lis : Nat) :
    (acceptLoopExit mp lis).transports = mp.transports := by
  unfold acceptLoopExit; split
  · split
    · simp only []; split <;> simp
    · rfl
  · rfl

@[simp] theorem acceptLoopExit_teleportationSources (mp : Meepo) (lis : Nat) :
    (acceptLoopExit mp lis).teleportationSources = mp.teleportationSources := by
  unfold acceptLoopExit; split
  · split
    · simp only []; split <;> simp
    · rfl
  · rfl

@[simp] theorem acceptLoopExit_teleportationSinks (mp : Meepo) (lis : Nat) :
    (acceptLoopExit mp lis).teleportationSinks = mp.teleportationSinks := by
  unfold acceptLoopExit; split
  · split
    · simp only []; split <;> simp
    · rfl
  · rfl

@[simp] theorem acceptLoopExit_handlers (mp : Meepo) (lis : Nat) :
    (acceptLoopExit mp lis).handlers = mp.handlers := by
  unfold acceptLoopExit; split
  · split
    · simp only []; split <;> simp
    · rfl
  · rfl

@[simp] theorem acceptLoopExit_nextSession (mp : Meepo) (lis : Nat) :
    (acceptLoopExit mp lis).nextSession = mp.nextSession := by
  unfold acceptLoopExit; split
  · split
    · simp only []; split <;> simp
    · rfl
  · rfl

@[simp] theorem acceptLoopExit_nextHandle (mp : Meepo) (lis : Nat) :
    (acceptLoopExit mp lis).nextHandle = mp.nextHandle := by
  unfold acceptLoopExit; split
  · split
    · simp only []; split <;> simp
    · rfl
  · rfl

@[simp] theorem acceptLoopExit_background (mp : Meepo) (lis : Nat) :
    (acceptLoopExit mp lis).background = mp.background := by
  unfold acceptLoopExit; split
  · split
    · simp only []; split <;> simp
    · rfl
  · rfl

@[simp] theorem createRequest_fst (mp : Meepo) (method : String) :
    (createRequest mp method).1 =
      { PeerID := mp.id, Kind := .MESSAGE_TYPE_REQUEST, Session := mp.nextSession,
        Method := method, Error := "" } := rfl

@[simp] theorem doRequest_fst (env : Env) (mp : Meepo) (peerID : String) (req : Request) :
    (doRequest env mp peerID req).1 = env.doRequest peerID req := rfl

theorem NewTeleportation_calls (env : Env) (mp : Meepo) (id : String) (remote : Addr)
    (opts : List OFN) :
    (newEvents mp (NewTeleportation env mp id remote opts).2).countP
      (Event.isCall "NewTeleportation") = 1 := by
  unfold NewTeleportation
  simp only [newEvents]
  split
  · simp [Event.isCall]
  · split
    · simp [Event.isCall, List.countP_cons]
    · split
      · simp [Event.isCall, List.countP_cons]
      · split
        · simp [Event.isCall, List.countP_cons]
        · split
          · simp [Event.isCall, List.countP_cons]
          · split
            · simp [Event.isCall, List.countP_cons]
            · simp [Event.isCall, List.countP_cons]

theorem getTransport_of_mem (mp : Meepo) (peerID : String) (h : peerID ∈ mp.transports) :
    getTransport mp peerID = .ok ⟨peerID⟩ := by
  simp [getTransport, h]

/-- C1. Teleport dedup. For a peer whose transport exists and whose listed halves are `tss`:
if `ts` is the first half of `tss` whose sink has the network and the string of `remote`,
`Teleport` returns `ts.Source()` with a nil error for any options and leaves the node exactly
as it was, log included (no call of `NewTeleportation`, no request, no listener, both
registries unchanged); if no listed half matches, `Teleport` is one call of
`NewTeleportation` with the options taken from its option map: it returns what that call
returns and the log shows exactly one entry into `NewTeleportation`. -/
theorem Teleport_dedup (env : Env) (mp : Meepo) (peerID : String) (remote : Addr)
    (opts : List OFN) (tss : List Teleportation)
    (htp : peerID ∈ mp.transports)
    (hlist : listTeleportationsByPeerID mp peerID = .ok tss) :
    (∀ pre ts post, tss = pre ++ ts :: post → (∀ x ∈ pre, ¬ sameAddr remote x) →
        sameAddr remote ts →
        Teleport env mp peerID remote opts = (.ok ts.Source, mp) ∧
        newEvents mp (Teleport env mp peerID remote opts).2 = []) ∧
    ((∀ x ∈ tss, ¬ sameAddr remote x) →
        Teleport env mp peerID remote opts =
          ((NewTeleportation env mp peerID remote
              (ntOpts (opts.foldl (fun o opt => opt o) newTeleportOptions))).1.map
            Teleportation.Source,
           (NewTeleportation env mp peerID remote
              (ntOpts (opts.foldl (fun o opt => opt o) newTeleportOptions))).2) ∧
        (newEvents mp (Teleport env mp peerID remote opts).2).countP
          (Event.isCall "NewTeleportation") = 1) := by
  have hT : Teleport env mp peerID remote opts
      = teleportBody env mp peerID remote (opts.foldl (fun o opt => opt o) newTeleportOptions) := by
    simp [Teleport, getTransport_of_mem mp peerID htp]
  constructor
  · intro pre ts post hsplit hpre hts
    have hfind : tss.find? (fun ts => sameAddr remote ts) = some ts := by
      rw [hsplit]
      exact find_first _ pre post ts (fun y hy => by simpa using hpre y hy) (by simpa using hts)
    have hres : Teleport env mp peerID remote opts = (.ok ts.Source, mp) := by
      rw [hT]; simp [teleportBody, hlist, hfind]
    exact ⟨hres, by rw [hres]; simp [newEvents]⟩
  · intro hnone
    have hfind : tss.find? (fun ts => sameAddr remote ts) = none :=
      find_none _ tss (fun y hy => by simpa using hnone y hy)
    have hres : Teleport env mp peerID remote opts =
          ((NewTeleportation env mp peerID remote
              (ntOpts (opts.foldl (fun o opt => opt o) newTeleportOptions))).1.map
            Teleportation.Source,
           (NewTeleportation env mp peerID remote
              (ntOpts (opts.foldl (fun o opt => opt o) newTeleportOptions))).2) := by
      rw [hT]; simp only [teleportBody, hlist, hfind]
      split <;> rename_i h <;> simp [h, Except.map]
    exact ⟨hres, by rw [hres]; exact NewTeleportation_calls _ _ _ _ _⟩

theorem Teleport_dedup_witness :
    "B" ∈ nodeAweb.transports ∧ listTeleportationsByPeerID nodeAweb "B" = .ok [halfB] ∧
    sameAddr tcpRemote halfB ∧
    Teleport envOK nodeAweb "B" tcpRemote [WithName "other"] = (.ok tcpLocal, nodeAweb) :=
  ⟨by decide, rfl, by decide,
   ((Teleport_dedup envOK nodeAweb "B" tcpRemote [WithName "other"] [halfB] (by decide) rfl).1
      [] halfB [] rfl (by simp) (by decide)).1⟩

theorem regGet_regAdd (m : List (String × Teleportation)) (name : String) (ts : Teleportation) :
    regGet (regAdd m name ts) name = some ts := by
  unfold regGet regAdd
  rw [find_first (fun kv => decide (kv.1 = name)) _ [] (name, ts)]
  · rfl
  · intro y hy
    have := (List.mem_filter.mp hy).2
    simpa using this
  · simp

/-- C7, as stated, fails: with no name option the request of
`NewTeleportation("B", tcp 10.0.0.5:9000)` and the key in the source registry are
`"tcp:10.0.0.5:9000"`, not the string form `"10.0.0.5:9000"` of the remote address. -/
theorem NewTeleportation_default_name_counterexample :
    requestNames (newEvents nodeA (NewTeleportation envOK nodeA "B" tcpRemote []).2)
      = ["tcp:10.0.0.5:9000"] ∧
    (NewTeleportation envOK nodeA "B" tcpRemote []).2.teleportationSources.map Prod.fst
      = ["tcp:10.0.0.5:9000"] ∧
    "tcp:10.0.0.5:9000" ≠ tcpRemote.text :=
  ⟨rfl, rfl, by decide⟩

/-- C7, amended. For every call of `NewTeleportation` whose local-address step succeeds,
exactly one `newTeleportation` request is built and its name is: the name option when one
is in the option map, unchanged, and `remote.Network() ++ ":" ++ remote.String()` when none
is; when the call succeeds, the half carries that name and is registered under it. -/
theorem NewTeleportation_name (env : Env) (mp : Meepo) (id : String) (remote : Addr)
    (opts : List OFN) (laddr : Addr)
    (hl : localAddress env (opts.foldl (fun o opt => opt o) newNewTeleportationOption)
      = .ok laddr) :
    requestNames (newEvents mp (NewTeleportation env mp id remote opts).2)
      = [match (opts.foldl (fun o opt => opt o) newNewTeleportationOption).name with
         | some n => n
         | none => remote.network ++ ":" ++ remote.text] ∧
    (∀ ts mp1, NewTeleportation env mp id remote opts = (.ok ts, mp1) →
      ts.Name = (match (opts.foldl (fun o opt => opt o) newNewTeleportationOption).name with
         | some n => n
         | none => remote.network ++ ":" ++ remote.text) ∧
      regGet mp1.teleportationSources ts.Name = some ts) := by
  have hname : ∀ o : Options, tunnelName remote o
      = (match o.name with
         | some n => n
         | none => remote.network ++ ":" ++ remote.text) := by
    intro o
    unfold tunnelName
    cases h : o.name <;> simp [h]
  rw [← hname]
  unfold NewTeleportation
  simp only [newEvents, hl]
  split
  · constructor
    · simp [requestNames]
    · intro ts mp1 h; simp at h
  · split
    · constructor
      · simp [requestNames]
      · intro ts mp1 h; simp at h
    · split
      · constructor
        · simp [requestNames]
        · intro ts mp1 h; simp at h
      · split
        · constructor
          · simp [requestNames]
          · intro ts mp1 h; simp at h
        · split
          · constructor
            · simp [requestNames]
            · intro ts mp1 h; simp at h
          · constructor
            · simp [requestNames]
            · intro ts mp1 h
              simp only [Prod.mk.injEq, Except.ok.injEq] at h
              obtain ⟨h1, h2⟩ := h
              subst h1; subst h2
              exact ⟨rfl, by simp [regGet_regAdd]⟩

theorem NewTeleportation_name_witness :
    localAddress envOK ([WithName "web"].foldl (fun o opt => opt o) newNewTeleportationOption)
      = .ok tcpLocal ∧
    requestNames (newEvents nodeA (NewTeleportation envOK nodeA "B" tcpRemote [WithName "web"]).2)
      = ["web"] :=
  ⟨rfl, (NewTeleportation_name envOK nodeA "B" tcpRemote [WithName "web"] tcpLocal rfl).1⟩

/-- C8, on the code: when `net.Listen` succeeded and the construction of the source half
fails, `NewTeleportation` returns the error and the listener it opened is still there,
never closed, `lisCloseOnce` not fired and its accept loop still running; the log shows
the listener opened and no close of it. -/
theorem NewTeleportation_listener_left_open :
    (NewTeleportation envNoSource nodeA "B" tcpRemote []).1
      = .error (.other "new teleportation source") ∧
    (NewTeleportation envNoSource nodeA "B" tcpRemote []).2.listeners
      = [{ addr := tcpLocal, closeCount := 0, lisCloseOnce := false, accepting := true,
           dialRequestsOpen := true }] ∧
    (newEvents nodeA (NewTeleportation envNoSource nodeA "B" tcpRemote []).2).countP
      Event.isListen = 1 ∧
    (newEvents nodeA (NewTeleportation envNoSource nodeA "B" tcpRemote []).2).countP
      (fun e => match e with | .lisClose _ => true | _ => false) = 0 :=
  ⟨rfl, rfl, rfl, rfl⟩

theorem GetTeleportation_source (mp : Meepo) (name : String) (ts : Teleportation)
    (h : regGet mp.teleportationSources name = some ts) :
    GetTeleportation mp name .SourceFirst = .ok ts := by
  simp [GetTeleportation, getTeleportationSource, h]

/-- What an error return and a success of `NewTeleportation` leave behind: an error return
leaves both registries and the transport-state subscriptions as they were, a response with
a non-empty error field opens no listener, and a success registers the half. -/
theorem NewTeleportation_error_frame (env : Env) (mp : Meepo) (id : String) (remote : Addr)
    (opts : List OFN) :
    (∀ err mp1, NewTeleportation env mp id remote opts = (.error err, mp1) →
      mp1.teleportationSources = mp.teleportationSources ∧
      mp1.teleportationSinks = mp.teleportationSinks ∧
      mp1.handlers = mp.handlers ∧
      (newEvents mp mp1).countP Event.isSubscribe = 0) ∧
    (∀ req res, Event.doRequest id req (.ok res) ∈
        newEvents mp (NewTeleportation env mp id remote opts).2 → res.Error ≠ "" →
      (NewTeleportation env mp id remote opts).1 = .error (.Errorf res.Error) ∧
      (NewTeleportation env mp id remote opts).2.listeners = mp.listeners ∧
      (newEvents mp (NewTeleportation env mp id remote opts).2).countP Event.isListen = 0) ∧
    (∀ ts mp1, NewTeleportation env mp id remote opts = (.ok ts, mp1) →
      regGet mp1.teleportationSources ts.Name = some ts ∧
      GetTeleportation mp1 ts.Name .SourceFirst = .ok ts) := by
  unfold NewTeleportation
  simp only [newEvents]
  split
  · refine ⟨?_, ?_, ?_⟩
    · intro err mp1 h
      simp only [Prod.mk.injEq] at h
      obtain ⟨_, h2⟩ := h
      subst h2
      simp [Event.isSubscribe]
    · intro req res hmem hne
      simp at hmem
    · intro ts mp1 h; simp at h
  · split
    · rename_i herr
      simp only [doRequest_fst, createRequest_fst, logEv_id, logEv_nextSession] at herr
      refine ⟨?_, ?_, ?_⟩
      · intro err mp1 h
        simp only [Prod.mk.injEq] at h
        obtain ⟨_, h2⟩ := h
        subst h2
        simp [Event.isSubscribe, List.countP_cons]
      · intro req res hmem hne
        simp at hmem
        rw [herr] at hmem
        simp at hmem
      · intro ts mp1 h; simp at h
    · rename_i r0 hok
      simp only [doRequest_fst, createRequest_fst, logEv_id, logEv_nextSession] at hok
      split
      · refine ⟨?_, ?_, ?_⟩
        · intro err mp1 h
          simp only [Prod.mk.injEq] at h
          obtain ⟨_, h2⟩ := h
          subst h2
          simp [Event.isSubscribe, List.countP_cons]
        · intro req res hmem hne
          simp at hmem
          rw [hok] at hmem
          have hr : res = r0 := by simpa using hmem.2
          subst hr
          simp [Event.isListen, List.countP_cons]
        · intro ts mp1 h; simp at h
      · rename_i hempty
        have hno : ∀ res : Message, Except.ok res = (Except.ok r0 : Except Err Message) →
            res.Error ≠ "" → False := by
          intro res h hne
          have hr : res = r0 := by simpa using h
          subst hr
          exact hempty hne
        split
        · refine ⟨?_, ?_, ?_⟩
          · intro err mp1 h
            simp only [Prod.mk.injEq] at h
            obtain ⟨_, h2⟩ := h
            subst h2
            simp [Event.isSubscribe, List.countP_cons]
          · intro req res hmem hne
            simp at hmem
            rw [hok] at hmem
            exact (hno res hmem.2 hne).elim
          · intro ts mp1 h; simp at h
        · split
          · refine ⟨?_, ?_, ?_⟩
            · intro err mp1 h
              simp only [Prod.mk.injEq] at h
              obtain ⟨_, h2⟩ := h
              subst h2
              simp [Event.isSubscribe, List.countP_cons]
            · intro req res hmem hne
              simp at hmem
              rw [hok] at hmem
              exact (hno res hmem.2 hne).elim
            · intro ts mp1 h; simp at h
          · split
            · refine ⟨?_, ?_, ?_⟩
              · intro err mp1 h
                simp only [Prod.mk.injEq] at h
                obtain ⟨_, h2⟩ := h
                subst h2
                simp [Event.isSubscribe, List.countP_cons]
              · intro req res hmem hne
                simp at hmem
                rw [hok] at hmem
                exact (hno res hmem.2 hne).elim
              · intro ts mp1 h; simp at h
            · refine ⟨?_, ?_, ?_⟩
              · intro err mp1 h; simp at h
              · intro req res hmem hne
                simp at hmem
                rw [hok] at hmem
                exact (hno res hmem.2 hne).elim
              · intro ts mp1 h
                simp only [Prod.mk.injEq, Except.ok.injEq] at h
                obtain ⟨h1, h2⟩ := h
                subst h1; subst h2
                exact ⟨by simp [regGet_regAdd],
                  GetTeleportation_source _ _ _ (by simp [regGet_regAdd])⟩

theorem getTransport_ok (mp : Meepo) (id : String) (tp : Transport)
    (h : getTransport mp id = .ok tp) : tp = ⟨id⟩ ∧ id ∈ mp.transports := by
  unfold getTransport at h
  split at h
  · rename_i hm
    simp only [Except.ok.injEq] at h
    exact ⟨h.symm, hm⟩
  · simp at h

theorem goAcceptLoop_openListener (mp : Meepo) (a : Addr) :
    (goAcceptLoop (openListener mp a) mp.listeners.length).listeners
      = mp.listeners ++ [{ addr := a, closeCount := 0, lisCloseOnce := false, accepting := true,
                           dialRequestsOpen := true }] := by
  unfold goAcceptLoop
  simp

/-- What a successful `NewTeleportation` leaves behind. -/
theorem NewTeleportation_ok (env : Env) (mp : Meepo) (id : String) (remote : Addr)
    (opts : List OFN) (ts : Teleportation) (mp1 : Meepo)
    (h : NewTeleportation env mp id remote opts = (.ok ts, mp1)) :
    ts.role = .source ∧
    ts.Name = tunnelName remote (opts.foldl (fun o opt => opt o) newNewTeleportationOption) ∧
    localAddress env (opts.foldl (fun o opt => opt o) newNewTeleportationOption) = .ok ts.Source ∧
    ts.Sink = remote ∧ ts.Transport = ⟨id⟩ ∧ ts.lis = some mp.listeners.length ∧
    id ∈ mp.transports ∧
    mp1.transports = mp.transports ∧
    mp1.teleportationSources = regAdd mp.teleportationSources ts.Name ts ∧
    mp1.teleportationSinks = mp.teleportationSinks ∧
    mp1.listeners = mp.listeners ++
      [{ addr := ts.Source, closeCount := 0, lisCloseOnce := false, accepting := true,
         dialRequestsOpen := true }] := by
  unfold NewTeleportation at h
  simp only [] at h
  split at h
  · simp at h
  · split at h
    · simp at h
    · split at h
      · simp at h
      · split at h
        · simp at h
        · split at h
          · simp at h
          · split at h
            · simp at h
            · rename_i laddr hl _ _ _ _ _ tp htp _ _ _ _
              simp only [Prod.mk.injEq, Except.ok.injEq] at h
              obtain ⟨h1, h2⟩ := h
              subst h1; subst h2
              have htp2 := getTransport_ok _ _ _ htp
              refine ⟨rfl, rfl, hl, rfl, htp2.1, by simp, by simpa using htp2.2, by simp, by simp,
                by simp, ?_⟩
              simp only [addTeleportationSource_listeners, OnTransportState_listeners,
                logEv_listeners]
              rw [goAcceptLoop_openListener]
              simp

theorem lisCloseOnceDo_get (mp : Meepo) (lis : Nat) (l : Listener)
    (h : mp.listeners[lis]? = some l) :
    (lisCloseOnceDo mp lis).listeners[lis]? =
      some (if l.lisCloseOnce then l
            else { l with lisCloseOnce := true, closeCount := l.closeCount + 1 }) := by
  have hlt : lis < mp.listeners.length := by
    rcases List.getElem?_eq_some.mp h with ⟨hlt, _⟩
    exact hlt
  unfold lisCloseOnceDo
  rw [h]
  simp only []
  split
  · simpa using h
  · unfold lisCloser
    simp [hlt]

theorem lisCloseOnceDo_done (mp : Meepo) (lis : Nat) (l : Listener)
    (h : mp.listeners[lis]? = some l) (hg : l.guarded) :
    ∃ l1, (lisCloseOnceDo mp lis).listeners[lis]? = some l1 ∧
      l1.lisCloseOnce = true ∧ l1.closeCount = 1 := by
  rw [lisCloseOnceDo_get mp lis l h]
  rcases hg with ⟨h1, h2, _⟩ | ⟨h1, h2⟩
  · exact ⟨_, rfl, by simp [h1], by simp [h1, h2]⟩
  · exact ⟨_, rfl, by simp [h1], by simp [h1, h2]⟩

theorem acceptLoopExit_done (mp : Meepo) (lis : Nat) (l : Listener)
    (h : mp.listeners[lis]? = some l) (hg : l.guarded) :
    ∃ l1, (acceptLoopExit mp lis).listeners[lis]? = some l1 ∧
      l1.lisCloseOnce = true ∧ l1.closeCount = 1 := by
  unfold acceptLoopExit
  rw [h]
  simp only []
  split
  · obtain ⟨l1, hl1, ho, hc⟩ := lisCloseOnceDo_done mp lis l h hg
    have hlt : lis < (lisCloseOnceDo mp lis).listeners.length := by
      rcases List.getElem?_eq_some.mp hl1 with ⟨hlt, _⟩
      exact hlt
    rw [hl1]
    refine ⟨{ l1 with accepting := false, dialRequestsOpen := false }, ?_, ho, hc⟩
    simp [hlt]
  · rename_i hacc
    rcases hg with ⟨_, _, h3⟩ | ⟨h1, h2⟩
    · exact absurd h3 hacc
    · exact ⟨l, h, h1, h2⟩

theorem fire_done (ts : Teleportation) (mp : Meepo) (t : Trigger) (lis : Nat) (l : Listener)
    (hlis : ts.lis = some lis) (h : mp.listeners[lis]? = some l) (hg : l.guarded) :
    ∃ l1, (fire ts mp t).listeners[lis]? = some l1 ∧
      l1.lisCloseOnce = true ∧ l1.closeCount = 1 := by
  cases t with
  | onClose =>
    simp only [fire, sourceOnCloseHandler, hlis]
    exact lisCloseOnceDo_done _ lis l (by simpa using h) hg
  | onError err =>
    simp only [fire, sourceOnErrorHandler, hlis]
    exact lisCloseOnceDo_done _ lis l (by simpa using h) hg
  | acceptLoopExit =>
    simp only [fire, hlis]
    exact acceptLoopExit_done mp lis l h hg

theorem fireAll_done (ts : Teleportation) (lis : Nat) (hlis : ts.lis = some lis)
    (trs : List Trigger) :
    ∀ (mp : Meepo) (l : Listener), mp.listeners[lis]? = some l →
      l.lisCloseOnce = true → l.closeCount = 1 →
      ∃ l1, (fireAll ts mp trs).listeners[lis]? = some l1 ∧
        l1.lisCloseOnce = true ∧ l1.closeCount = 1 := by
  induction trs with
  | nil => intro mp l h ho hc; exact ⟨l, h, ho, hc⟩
  | cons t rest ih =>
    intro mp l h ho hc
    obtain ⟨l1, h1, ho1, hc1⟩ := fire_done ts mp t lis l hlis h (Or.inr ⟨ho, hc⟩)
    exact ih (fire ts mp t) l1 h1 ho1 hc1

theorem regRemove_idem (m : List (String × Teleportation)) (name : String) :
    regRemove (regRemove m name) name = regRemove m name := by
  simp [regRemove, List.filter_filter]

theorem regGet_regRemove (m : List (String × Teleportation)) (name : String) :
    regGet (regRemove m name) name = none := by
  unfold regGet regRemove
  rw [find_none]
  · rfl
  · intro y hy
    have := (List.mem_filter.mp hy).2
    simpa using this

theorem fire_sources (ts : Teleportation) (mp : Meepo) (t : Trigger) :
    (fire ts mp t).teleportationSources =
      if t.isHandler then regRemove mp.teleportationSources ts.Name
      else mp.teleportationSources := by
  cases t with
  | onClose =>
    simp only [fire, sourceOnCloseHandler, Trigger.isHandler]
    split <;> simp
  | onError err =>
    simp only [fire, sourceOnErrorHandler, Trigger.isHandler]
    split <;> simp
  | acceptLoopExit =>
    simp only [fire, Trigger.isHandler]
    split <;> simp

theorem fireAll_sources (ts : Teleportation) (trs : List Trigger) :
    ∀ mp : Meepo, (fireAll ts mp trs).teleportationSources =
      if trs.any Trigger.isHandler then regRemove mp.teleportationSources ts.Name
      else mp.teleportationSources := by
  induction trs with
  | nil => intro mp; simp [fireAll]
  | cons t rest ih =>
    intro mp
    have hstep : fireAll ts mp (t :: rest) = fireAll ts (fire ts mp t) rest := rfl
    rw [hstep, ih, fire_sources]
    cases ht : t.isHandler <;> cases hr : rest.any Trigger.isHandler <;>
      simp [ht, hr, regRemove_idem]

/-- C10, as stated, fails in two ways. On `nodeA` after
`NewTeleportation("B", tcp 10.0.0.5:9000)`: the accept-loop exit alone closes the listener
once and leaves the half in the source registry (deregistered zero times); and when the
on-close handler fired, the same tunnel was created again under the same name and the
on-error handler of the first half fires, that second firing removes the new half from
the source registry. -/
theorem teardown_single_fire_counterexample :
    (NewTeleportation envOK nodeA "B" tcpRemote []).1 = .ok firstHalf ∧
    closeCountOf (fireAll firstHalf nodeA1 [.acceptLoopExit]) 0 = some 1 ∧
    getTeleportationSource (fireAll firstHalf nodeA1 [.acceptLoopExit]) firstHalf.Name
      = some firstHalf ∧
    (NewTeleportation envOK nodeA2 "B" tcpRemote []).1 = .ok secondHalf ∧
    getTeleportationSource nodeA3 firstHalf.Name = some secondHalf ∧
    getTeleportationSource nodeA4 firstHalf.Name = none ∧
    closeCountOf nodeA4 0 = some 1 :=
  ⟨rfl, rfl, rfl, rfl, rfl, rfl, rfl⟩

/-- C10, amended. For a source half `ts` created by `NewTeleportation` and every non-empty
sequence of firings of its teardown triggers, in any order: the listener of the half, not
closed before, has been closed exactly once (`lisCloseOnce`); the accept-loop exit does not
touch the source registry and the on-close and on-error handlers remove the name of the
half from it, so the registry afterwards is the one before with that name removed when a
handler fired and the one before otherwise; once a handler fired, a further trigger
changes neither the number of closes nor the source registry, nothing else having been
registered under the name meanwhile. -/
theorem teardown_listener_once (env : Env) (mp : Meepo) (id : String) (remote : Addr)
    (opts : List OFN) (ts : Teleportation) (mp1 : Meepo)
    (h : NewTeleportation env mp id remote opts = (.ok ts, mp1))
    (trs : List Trigger) (hne : trs ≠ []) :
    ∃ lis, ts.lis = some lis ∧ closeCountOf mp1 lis = some 0 ∧
      closeCountOf (fireAll ts mp1 trs) lis = some 1 ∧
      (∀ t, closeCountOf (fire ts (fireAll ts mp1 trs) t) lis = some 1) ∧
      (fireAll ts mp1 trs).teleportationSources =
        (if trs.any Trigger.isHandler then regRemove mp1.teleportationSources ts.Name
         else mp1.teleportationSources) ∧
      (trs.any Trigger.isHandler = true →
        getTeleportationSource (fireAll ts mp1 trs) ts.Name = none ∧
        ∀ t, (fire ts (fireAll ts mp1 trs) t).teleportationSources
          = (fireAll ts mp1 trs).teleportationSources) ∧
      (trs.any Trigger.isHandler = false →
        getTeleportationSource (fireAll ts mp1 trs) ts.Name = some ts) := by
  obtain ⟨_, _, _, _, _, hlis, _, _, hsrc, _, hlst⟩ := NewTeleportation_ok env mp id remote opts ts mp1 h
  have hget : mp1.listeners[mp.listeners.length]? =
      some { addr := ts.Source, closeCount := 0, lisCloseOnce := false, accepting := true,
             dialRequestsOpen := true } := by
    rw [hlst]; simp
  have hall : ∀ trs : List Trigger, trs ≠ [] →
      ∃ l1, (fireAll ts mp1 trs).listeners[mp.listeners.length]? = some l1 ∧
        l1.lisCloseOnce = true ∧ l1.closeCount = 1 := by
    intro trs hne
    cases trs with
    | nil => exact absurd rfl hne
    | cons t rest =>
      obtain ⟨l1, h1, ho1, hc1⟩ :=
        fire_done ts mp1 t _ _ hlis hget (Or.inl ⟨rfl, rfl, rfl⟩)
      exact fireAll_done ts _ hlis rest (fire ts mp1 t) l1 h1 ho1 hc1
  refine ⟨mp.listeners.length, hlis, ?_, ?_, ?_, fireAll_sources ts trs mp1, ?_, ?_⟩
  · simp [closeCountOf, hget]
  · obtain ⟨l1, h1, _, hc1⟩ := hall trs hne
    simp [closeCountOf, h1, hc1]
  · intro t
    have hstep : fire ts (fireAll ts mp1 trs) t = fireAll ts mp1 (trs ++ [t]) := by
      simp [fireAll, List.foldl_append]
    obtain ⟨l1, h1, _, hc1⟩ := hall (trs ++ [t]) (by simp)
    rw [hstep]
    simp [closeCountOf, h1, hc1]
  · intro hany
    have hs := fireAll_sources ts trs mp1
    rw [hany] at hs
    simp only [if_true] at hs
    refine ⟨?_, ?_⟩
    · simp [getTeleportationSource, hs, regGet_regRemove]
    · intro t
      rw [fire_sources, hs]
      split <;> simp [regRemove_idem]
  · intro hany
    have hs := fireAll_sources ts trs mp1
    rw [hany] at hs
    simp only [Bool.false_eq_true, if_false] at hs
    simp [getTeleportationSource, hs, hsrc, regGet_regAdd]

theorem teardown_listener_once_witness :
    NewTeleportation envOK nodeA "B" tcpRemote [] = (.ok firstHalf, nodeA1) ∧
    closeCountOf (fireAll firstHalf nodeA1
      [.acceptLoopExit, .onClose, .onError (.other "use of closed connection"), .onClose]) 0
      = some 1 := by
  refine ⟨rfl, ?_⟩
  obtain ⟨lis, h1, _, h3, _⟩ := teardown_listener_once envOK nodeA "B" tcpRemote [] firstHalf
    nodeA1 rfl
    [.acceptLoopExit, .onClose, .onError (.other "use of closed connection"), .onClose]
    (by simp)
  have : lis = 0 := by
    have h0 : firstHalf.lis = some 0 := rfl
    rw [h0] at h1
    exact (Option.some.inj h1).symm
  subst this
  exact h3

/-- C3. `CloseTeleportation(name)` returns nil exactly when the source-first lookup finds a
half, the `closeTeleportation` round trip to the peer of that half's transport returns a
response and the error field of the response is empty. Then one goroutine closing that
half is started and nil is returned at once: the result is fixed before the goroutine runs
and nothing of `Close` reaches it. Otherwise an error is returned and no close is started.
The call itself never changes a registry, and a failed lookup returns the lookup error with
the node untouched: no request is sent. -/
theorem CloseTeleportation_result (env : Env) (mp : Meepo) (name : String) :
    ((CloseTeleportation env mp name).1 = none ↔
      ∃ tp res, GetTeleportation mp name .SourceFirst = .ok tp ∧
        env.doRequest tp.Transport.PeerID
          (.closeTeleportation
            { Message := (createRequest mp "closeTeleportation").1, Name := name }) = .ok res ∧
        res.Error = "") ∧
    ((CloseTeleportation env mp name).1 = none →
      ∃ tp, GetTeleportation mp name .SourceFirst = .ok tp ∧
        (CloseTeleportation env mp name).2.background = mp.background ++ [tp] ∧
        (newEvents mp (CloseTeleportation env mp name).2).filter Event.isGoClose
          = [.goClose tp] ∧
        (newEvents mp (CloseTeleportation env mp name).2).countP Event.isRequest = 1) ∧
    ((CloseTeleportation env mp name).1 ≠ none →
      (CloseTeleportation env mp name).2.background = mp.background ∧
      (newEvents mp (CloseTeleportation env mp name).2).countP Event.isGoClose = 0) ∧
    ((CloseTeleportation env mp name).2.teleportationSources = mp.teleportationSources ∧
      (CloseTeleportation env mp name).2.teleportationSinks = mp.teleportationSinks) ∧
    (∀ err, GetTeleportation mp name .SourceFirst = .error err →
      CloseTeleportation env mp name = (some err, mp)) := by
  unfold CloseTeleportation
  simp only [newEvents]
  split
  · rename_i err herr
    refine ⟨?_, ?_, ?_, ?_, ?_⟩
    · simp [herr]
    · intro h; simp at h
    · intro _; simp [Event.isGoClose]
    · exact ⟨rfl, rfl⟩
    · intro err1 h
      rw [herr] at h
      simp only [Except.error.injEq] at h
      simp [h]
  · rename_i tp htp
    simp only [doRequest_fst]
    split
    · rename_i err herr
      refine ⟨?_, ?_, ?_, ?_, ?_⟩
      · constructor
        · intro h; simp at h
        · rintro ⟨tp1, res1, h1, h2, _⟩
          rw [htp] at h1
          simp only [Except.ok.injEq] at h1
          subst h1
          rw [herr] at h2
          simp at h2
      · intro h; simp at h
      · intro _; simp [Event.isGoClose, List.countP_cons]
      · simp
      · intro err1 h; simp [htp] at h
    · rename_i res hres
      split
      · rename_i hne
        refine ⟨?_, ?_, ?_, ?_, ?_⟩
        · constructor
          · intro h; simp at h
          · rintro ⟨tp1, res1, h1, h2, h3⟩
            rw [htp] at h1
            simp only [Except.ok.injEq] at h1
            subst h1
            rw [hres] at h2
            simp only [Except.ok.injEq] at h2
            subst h2
            exact absurd h3 hne
        · intro h; simp at h
        · intro _; simp [Event.isGoClose, List.countP_cons]
        · simp
        · intro err1 h; simp [htp] at h
      · rename_i hempty
        have he : res.Error = "" := by
          by_contra hc; exact hempty hc
        refine ⟨?_, ?_, ?_, ?_, ?_⟩
        · constructor
          · intro _
            exact ⟨tp, res, htp, hres, he⟩
          · intro _; rfl
        · intro _
          refine ⟨tp, htp, by simp, ?_, ?_⟩
          · simp [Event.isGoClose, List.filter_cons]
          · simp [Event.isRequest, List.countP_cons]
        · intro h; simp at h
        · simp
        · intro err1 h; simp [htp] at h

theorem CloseTeleportation_result_witness :
    GetTeleportation nodeA "web" .SourceFirst = .error .TeleportationNotExistError ∧
    CloseTeleportation envOK nodeA "web" = (some .TeleportationNotExistError, nodeA) :=
  ⟨rfl, (CloseTeleportation_result envOK nodeA "web").2.2.2.2 _ rfl⟩

theorem GetTeleportation_sink (mp : Meepo) (name : String) (ts : Teleportation)
    (h : getTeleportationSink mp name = some ts) :
    GetTeleportation mp name .SinkFirst = .ok ts := by
  simp [GetTeleportation, h]

theorem GetTeleportation_neither (mp : Meepo) (name : String) (order : GetOrder)
    (h1 : getTeleportationSink mp name = none) (h2 : getTeleportationSource mp name = none) :
    GetTeleportation mp name order = .error .TeleportationNotExistError := by
  cases order <;> simp [GetTeleportation, h1, h2]

/-- C4. `onCloseTeleportation` replies success regardless of the close outcome. When the
sink-first lookup finds a half, the handler starts one goroutine closing that half and
sends exactly one message: the response of the request, with the correlation ID of the
request and an empty error field; the response is built without waiting for `Close`, so it
is the same whether `Close` returns nil or an error. A name held by both registries is
found in the sink registry, so the sink half is the one closed. When the name is in
neither registry the handler sends exactly one message, the response carrying the text of
the lookup error, and starts no close. -/
theorem onCloseTeleportation_reply (env : Env) (mp : Meepo) (dc : Nat)
    (req : CloseTeleportationRequest) :
    (∀ ts, GetTeleportation mp req.Name .SinkFirst = .ok ts →
      newEvents mp (onCloseTeleportation env mp dc req) =
        [.goClose ts,
         .sendMessage dc
           { PeerID := mp.id, Kind := .MESSAGE_TYPE_RESPONSE, Session := req.Message.Session,
             Method := req.Message.Method, Error := "" }] ∧
      (onCloseTeleportation env mp dc req).background = mp.background ++ [ts]) ∧
    (∀ tsink, getTeleportationSink mp req.Name = some tsink →
      GetTeleportation mp req.Name .SinkFirst = .ok tsink) ∧
    (getTeleportationSink mp req.Name = none → getTeleportationSource mp req.Name = none →
      newEvents mp (onCloseTeleportation env mp dc req) =
        [.sendMessage dc
           { PeerID := mp.id, Kind := .MESSAGE_TYPE_RESPONSE, Session := req.Message.Session,
             Method := req.Message.Method,
             Error := Err.Error env.Sprintf .TeleportationNotExistError }] ∧
      (onCloseTeleportation env mp dc req).background = mp.background) := by
  refine ⟨?_, ?_, ?_⟩
  · intro ts h
    simp [onCloseTeleportation, h, newEvents, invertMessage]
  · intro tsink h
    exact GetTeleportation_sink mp req.Name tsink h
  · intro h1 h2
    simp [onCloseTeleportation, GetTeleportation_neither mp req.Name .SinkFirst h1 h2, newEvents,
      invertMessageWithError, invertMessage]

theorem onCloseTeleportation_reply_witness :
    GetTeleportation nodeAboth closeWeb.Name .SinkFirst = .ok sinkB ∧
    newEvents nodeAboth (onCloseTeleportation envOK nodeAboth 7 closeWeb) =
      [.goClose sinkB,
       .sendMessage 7 ⟨"A", .MESSAGE_TYPE_RESPONSE, 41, "closeTeleportation", ""⟩] :=
  ⟨rfl, ((onCloseTeleportation_reply envOK nodeAboth 7 closeWeb).1 sinkB rfl).1⟩

/-- `DoTeleport` for an unknown tunnel. When the name of a `doTeleport` request has no
entry in the sink registry (whatever the source registry holds), `onDoTeleport` sends
exactly one message, the response whose error field is the text of
`TeleportationNotExistError`, and invokes `OnDoTeleport` on no half. And for every response
with a non-empty error field, the do-teleport callback that `NewTeleportation` gives to the
source half returns a non-nil error: `fmt.Errorf` with that text as the format. -/
theorem onDoTeleport_unknown (env : Env) (mp : Meepo) (dc : Nat) (req : DoTeleportRequest)
    (h : getTeleportationSink mp req.Name = none) :
    newEvents mp (onDoTeleport env mp dc req) =
      [.sendMessage dc
         { PeerID := mp.id, Kind := .MESSAGE_TYPE_RESPONSE, Session := req.Message.Session,
           Method := req.Message.Method,
           Error := Err.Error env.Sprintf .TeleportationNotExistError }] ∧
    (newEvents mp (onDoTeleport env mp dc req)).countP Event.isOnDoTeleport = 0 ∧
    (∀ (node : Meepo) (id name label : String) (res : Message),
      env.doRequest id
        (.doTeleport { Message := (createRequest node "doTeleport").1, Name := name,
                       Label := label }) = .ok res →
      res.Error ≠ "" →
      (doTeleportFunc env node id name label).1 = some (.Errorf res.Error)) := by
  have hev : newEvents mp (onDoTeleport env mp dc req) =
      [.sendMessage dc
         { PeerID := mp.id, Kind := .MESSAGE_TYPE_RESPONSE, Session := req.Message.Session,
           Method := req.Message.Method,
           Error := Err.Error env.Sprintf .TeleportationNotExistError }] := by
    simp [onDoTeleport, h, newEvents, invertMessageWithError, invertMessage]
  refine ⟨hev, ?_, ?_⟩
  · rw [hev]; simp [Event.isOnDoTeleport]
  · intro node id name label res hres hne
    unfold doTeleportFunc
    simp only [createRequest_fst] at hres
    simp [createRequest, hres, hne]

theorem onDoTeleport_unknown_witness :
    getTeleportationSink nodeAweb doWeb.Name = none ∧
    getTeleportationSource nodeAweb doWeb.Name = some halfB ∧
    newEvents nodeAweb (onDoTeleport envOK nodeAweb 7 doWeb) =
      [.sendMessage 7
         ⟨"A", .MESSAGE_TYPE_RESPONSE, 42, "doTeleport", "teleportation not exist"⟩] :=
  ⟨rfl, rfl, (onDoTeleport_unknown envOK nodeAweb 7 doWeb rfl).1⟩

/-- C6, as stated, fails: node `A` has no transport to peer `Z`, the `newTeleportation`
request stamped `Z` names a remote address that does not resolve, and the one response of
the handler carries the text of `TransportNotExistError`, not the resolution error. -/
theorem onNewTeleportation_unresolvable_counterexample :
    envTcpOnly.resolveTeleportationSinkAddr newBluetoothZ.RemoteNetwork
      newBluetoothZ.RemoteAddress = .error (.other "unsupported network") ∧
    getTransport nodeA newBluetoothZ.Message.PeerID = .error .TransportNotExistError ∧
    newEvents nodeA (onNewTeleportation envTcpOnly nodeA 7 newBluetoothZ) =
      [.sendMessage 7
         ⟨"A", .MESSAGE_TYPE_RESPONSE, 43, "newTeleportation",
          Err.Error envTcpOnly.Sprintf .TransportNotExistError⟩] ∧
    Err.Error envTcpOnly.Sprintf .TransportNotExistError
      ≠ Err.Error envTcpOnly.Sprintf (.other "unsupported network") :=
  ⟨rfl, rfl, rfl, by decide⟩

/-- C6, amended. For every `newTeleportation` request of which the source address or,
the source address resolving, the sink address fails to resolve with an error of
non-empty text, the handler sends exactly one message and does nothing else: the response
of the request with a non-empty error field, which is the text of the resolution error
when the transport of the requesting peer is found and the text of
`TransportNotExistError` when it is not. No sink half is constructed, no transport-state
handler is subscribed and the sink registry is unchanged. -/
theorem onNewTeleportation_unresolvable (env : Env) (mp : Meepo) (dc : Nat)
    (req : NewTeleportationRequest) (err : Err)
    (hres : env.resolveTeleportationSourceAddr req.LocalNetwork req.LocalAddress = .error err ∨
      ((∃ source, env.resolveTeleportationSourceAddr req.LocalNetwork req.LocalAddress
          = .ok source) ∧
        env.resolveTeleportationSinkAddr req.RemoteNetwork req.RemoteAddress = .error err))
    (htext : err.Error env.Sprintf ≠ "") :
    newEvents mp (onNewTeleportation env mp dc req) =
      [.sendMessage dc
         { PeerID := mp.id, Kind := .MESSAGE_TYPE_RESPONSE, Session := req.Message.Session,
           Method := req.Message.Method,
           Error := if req.Message.PeerID ∈ mp.transports then err.Error env.Sprintf
                    else Err.Error env.Sprintf .TransportNotExistError }] ∧
    (if req.Message.PeerID ∈ mp.transports then err.Error env.Sprintf
      else Err.Error env.Sprintf .TransportNotExistError) ≠ "" ∧
    (newEvents mp (onNewTeleportation env mp dc req)).countP Event.isConstruct = 0 ∧
    (newEvents mp (onNewTeleportation env mp dc req)).countP Event.isSubscribe = 0 ∧
    (onNewTeleportation env mp dc req).teleportationSinks = mp.teleportationSinks ∧
    (onNewTeleportation env mp dc req).teleportationSources = mp.teleportationSources ∧
    (onNewTeleportation env mp dc req).handlers = mp.handlers := by
  have hstate : onNewTeleportation env mp dc req =
      sendMessage mp dc
        { PeerID := mp.id, Kind := .MESSAGE_TYPE_RESPONSE, Session := req.Message.Session,
          Method := req.Message.Method,
          Error := if req.Message.PeerID ∈ mp.transports then err.Error env.Sprintf
                   else Err.Error env.Sprintf .TransportNotExistError } := by
    unfold onNewTeleportation
    by_cases hm : req.Message.PeerID ∈ mp.transports
    · rcases hres with h1 | ⟨⟨source, h1⟩, h2⟩
      · simp [getTransport, hm, h1, invertMessageWithError, invertMessage]
      · simp [getTransport, hm, h1, h2, invertMessageWithError, invertMessage]
    · simp [getTransport, hm, invertMessageWithError, invertMessage]
  rw [hstate]
  refine ⟨by simp [newEvents], ?_, by simp [newEvents, Event.isConstruct],
    by simp [newEvents, Event.isSubscribe], by simp, by simp, by simp⟩
  split
  · exact htext
  · simp [Err.Error]

theorem onNewTeleportation_unresolvable_witness :
    envTcpOnly.resolveTeleportationSinkAddr newBluetooth.RemoteNetwork
      newBluetooth.RemoteAddress = .error (.other "unsupported network") ∧
    newEvents nodeA (onNewTeleportation envTcpOnly nodeA 7 newBluetooth) =
      [.sendMessage 7
         ⟨"A", .MESSAGE_TYPE_RESPONSE, 43, "newTeleportation", "unsupported network"⟩] ∧
    (onNewTeleportation envTcpOnly nodeA 7 newBluetooth).teleportationSinks = [] :=
  ⟨rfl,
   (onNewTeleportation_unresolvable envTcpOnly nodeA 7 newBluetooth
      (.other "unsupported network") (Or.inr ⟨⟨⟨"tcp", "127.0.0.1:0"⟩, rfl⟩, rfl⟩)
      (by decide)).1,
   rfl⟩

theorem getTransport_err (mp : Meepo) (id : String) (err : Err)
    (h : getTransport mp id = .error err) : err = .TransportNotExistError := by
  unfold getTransport at h
  split at h
  · simp at h
  · simp only [Except.error.injEq] at h
    exact h.symm

/-- When no listed half matches, a successful `teleportBody` is a successful
`NewTeleportation`. -/
theorem teleportBody_created (env : Env) (m : Meepo) (peerID : String) (remote : Addr)
    (o : Options) (L : Addr) (m1 : Meepo)
    (hno : ∀ kv ∈ m.teleportationSources, kv.2.Transport.PeerID = peerID →
      ¬ sameAddr remote kv.2)
    (h : teleportBody env m peerID remote o = (.ok L, m1)) :
    ∃ ts, NewTeleportation env m peerID remote (ntOpts o) = (.ok ts, m1) ∧ L = ts.Source := by
  have hfind : ((m.teleportationSources.map Prod.snd).filter
      (fun ts => ts.Transport.PeerID = peerID)).find? (fun ts => sameAddr remote ts) = none := by
    apply find_none
    intro y hy
    rcases List.mem_filter.mp hy with ⟨hy1, hy2⟩
    rcases List.mem_map.mp hy1 with ⟨kv, hkv, rfl⟩
    have := hno kv hkv (by simpa using hy2)
    simpa using this
  unfold teleportBody at h
  simp only [listTeleportationsByPeerID, hfind] at h
  split at h
  · simp at h
  · rename_i ts hts
    simp only [Prod.mk.injEq, Except.ok.injEq] at h
    refine ⟨ts, ?_, h.1.symm⟩
    rw [← h.2, ← hts]

/-- When the source registry is `m` with the half `ts` added under `n`, `ts` is a half of
peer `peerID` targeting `remote` and no half of `m` for that peer targets `remote`, the
dedup of `Teleport` finds `ts` and nothing else. -/
theorem dedup_after_add (m : List (String × Teleportation)) (n : String) (ts : Teleportation)
    (peerID : String) (remote : Addr)
    (hno : ∀ kv ∈ m, kv.2.Transport.PeerID = peerID → ¬ sameAddr remote kv.2)
    (hpeer : ts.Transport.PeerID = peerID) (hsink : sameAddr remote ts) :
    ((((regAdd m n ts).map Prod.snd).filter (fun t => t.Transport.PeerID = peerID)).find?
        (fun t => sameAddr remote t) = some ts) ∧
    (((regAdd m n ts).map Prod.snd).filter
        (fun t => t.Transport.PeerID = peerID ∧ sameAddr remote t)) = [ts] := by
  have hshape : ((regAdd m n ts).map Prod.snd).filter (fun t => t.Transport.PeerID = peerID)
      = (((m.filter (fun kv => kv.1 ≠ n)).map Prod.snd).filter
          (fun t => t.Transport.PeerID = peerID)) ++ [ts] := by
    simp [regAdd, List.filter_append, hpeer]
  have hpre : ∀ y ∈ ((m.filter (fun kv => kv.1 ≠ n)).map Prod.snd),
      y.Transport.PeerID = peerID → ¬ sameAddr remote y := by
    intro y hy hp
    rcases List.mem_map.mp hy with ⟨kv, hkv, rfl⟩
    exact hno kv (List.mem_filter.mp hkv).1 hp
  constructor
  · rw [hshape]
    apply find_first
    · intro y hy
      rcases List.mem_filter.mp hy with ⟨hy1, hy2⟩
      have := hpre y hy1 (by simpa using hy2)
      simpa using this
    · simpa using hsink
  · have hnil : (((m.filter (fun kv => kv.1 ≠ n)).map Prod.snd).filter
        (fun t => t.Transport.PeerID = peerID ∧ sameAddr remote t)) = [] := by
      rw [List.filter_eq_nil_iff]
      intro y hy
      have := hpre y hy
      simp only [decide_eq_true_eq, not_and]
      exact this
    simp only [regAdd, List.map_append, List.filter_append, hnil, List.map_cons, List.map_nil,
      List.nil_append]
    simp [List.filter_cons, hpeer, hsink]

/-- C2, amended. Teleport idempotence. If a first call `Teleport(peerID, remote)` succeeds
with the local address `L` and created the half (no listed half of the peer targeted
`remote` before it), then on every node state that has the source registry and the
transports the first call left (the created half still registered, the transport to the
peer still there, no other half registered since), a second call
`Teleport(peerID, remote)` with any options succeeds, returns the same `L` and leaves the
node exactly as it was, log included, so no `newTeleportation` request is sent; and the
source registry holds exactly one half of `peerID` whose sink is `remote`. -/
theorem Teleport_idempotent (env : Env) (mp : Meepo) (peerID : String) (remote : Addr)
    (opts1 opts2 : List OFN) (L : Addr) (mp1 mp2 : Meepo)
    (hfirst : Teleport env mp peerID remote opts1 = (.ok L, mp1))
    (hcreated : ∀ kv ∈ mp.teleportationSources, kv.2.Transport.PeerID = peerID →
      ¬ sameAddr remote kv.2)
    (hsrc : mp2.teleportationSources = mp1.teleportationSources)
    (htps : mp2.transports = mp1.transports) :
    Teleport env mp2 peerID remote opts2 = (.ok L, mp2) ∧
    newEvents mp2 (Teleport env mp2 peerID remote opts2).2 = [] ∧
    ((mp2.teleportationSources.map Prod.snd).filter
      (fun t => t.Transport.PeerID = peerID ∧ sameAddr remote t)).length = 1 := by
  -- what the first call left
  have hleft : ∃ ts, L = ts.Source ∧ ts.Sink = remote ∧ ts.Transport = ⟨peerID⟩ ∧
      peerID ∈ mp1.transports ∧
      mp1.teleportationSources = regAdd mp.teleportationSources ts.Name ts := by
    unfold Teleport at hfirst
    simp only [] at hfirst
    split at hfirst
    · rename_i err herr
      have he := getTransport_err mp peerID err herr
      subst he
      simp only [ne_eq, not_true_eq_false, if_false] at hfirst
      split at hfirst
      · simp at hfirst
      · simp only [Prod.mk.injEq] at hfirst
        obtain ⟨h1, h2⟩ := hfirst
        obtain ⟨ts, hnt, hL⟩ := teleportBody_created env _ peerID remote _ L _
          (by simpa using hcreated) (Prod.ext h1 rfl)
        obtain ⟨_, _, _, hsink, htp, _, hmem, htr, hs, _, _⟩ :=
          NewTeleportation_ok env _ peerID remote _ ts _ hnt
        refine ⟨ts, hL, hsink, htp, ?_, ?_⟩
        · rw [← h2]; simp [htr]
        · rw [← h2]; simpa using hs
    · obtain ⟨ts, hnt, hL⟩ := teleportBody_created env mp peerID remote _ L mp1 hcreated hfirst
      obtain ⟨_, _, _, hsink, htp, _, hmem, htr, hs, _, _⟩ :=
        NewTeleportation_ok env mp peerID remote _ ts mp1 hnt
      exact ⟨ts, hL, hsink, htp, by rw [htr]; exact hmem, hs⟩
  obtain ⟨ts, hL, hsink, htp, hmem, hs⟩ := hleft
  have hpeer : ts.Transport.PeerID = peerID := by rw [htp]
  have hsame : sameAddr remote ts := by rw [sameAddr, hsink]; exact ⟨rfl, rfl⟩
  obtain ⟨hfind, hone⟩ := dedup_after_add mp.teleportationSources ts.Name ts peerID remote
    hcreated hpeer hsame
  have hres : Teleport env mp2 peerID remote opts2 = (.ok L, mp2) := by
    have hT : Teleport env mp2 peerID remote opts2 = teleportBody env mp2 peerID remote
        (opts2.foldl (fun o opt => opt o) newTeleportOptions) := by
      simp [Teleport, getTransport_of_mem mp2 peerID (by rw [htps]; exact hmem)]
    rw [hT]
    simp only [teleportBody, listTeleportationsByPeerID, hsrc, hs, hfind, hL]
  refine ⟨hres, by rw [hres]; simp [newEvents], ?_⟩
  rw [hsrc, hs, hone]
  rfl

theorem Teleport_idempotent_witness :
    Teleport envOK nodeA "B" tcpRemote [] = (.ok tcpLocal, (Teleport envOK nodeA "B" tcpRemote []).2) ∧
    Teleport envOK (Teleport envOK nodeA "B" tcpRemote []).2 "B" tcpRemote [WithName "again"]
      = (.ok tcpLocal, (Teleport envOK nodeA "B" tcpRemote []).2) :=
  ⟨rfl,
   (Teleport_idempotent envOK nodeA "B" tcpRemote [] [WithName "again"] tcpLocal
      (Teleport envOK nodeA "B" tcpRemote []).2 (Teleport envOK nodeA "B" tcpRemote []).2
      rfl (by simp [nodeA]) rfl rfl).1⟩

/-- The result of `NewTeleportation`, step by step: the first step that fails decides the
error that is returned, and when no step fails the call returns the half. -/
theorem NewTeleportation_steps (env : Env) (mp : Meepo) (id : String) (remote : Addr)
    (opts : List OFN) :
    (∀ e, localAddress env (opts.foldl (fun o opt => opt o) newNewTeleportationOption)
        = .error e →
      (NewTeleportation env mp id remote opts).1 = .error e) ∧
    (∀ laddr, localAddress env (opts.foldl (fun o opt => opt o) newNewTeleportationOption)
        = .ok laddr →
      (∀ e, env.doRequest id (.newTeleportation (newTeleportationRequest mp remote
            (opts.foldl (fun o opt => opt o) newNewTeleportationOption) laddr)) = .error e →
        (NewTeleportation env mp id remote opts).1 = .error e) ∧
      (∀ res, env.doRequest id (.newTeleportation (newTeleportationRequest mp remote
            (opts.foldl (fun o opt => opt o) newNewTeleportationOption) laddr)) = .ok res →
        (res.Error ≠ "" →
          (NewTeleportation env mp id remote opts).1 = .error (.Errorf res.Error)) ∧
        (res.Error = "" →
          (id ∉ mp.transports →
            (NewTeleportation env mp id remote opts).1 = .error .TransportNotExistError) ∧
          (id ∈ mp.transports →
            (∀ e, env.Listen laddr.network laddr.text = some e →
              (NewTeleportation env mp id remote opts).1 = .error e) ∧
            (env.Listen laddr.network laddr.text = none →
              (∀ e, env.NewTeleportationSource
                  (tunnelName remote (opts.foldl (fun o opt => opt o) newNewTeleportationOption))
                  laddr remote ⟨id⟩ = some e →
                (NewTeleportation env mp id remote opts).1 = .error e) ∧
              (env.NewTeleportationSource
                  (tunnelName remote (opts.foldl (fun o opt => opt o) newNewTeleportationOption))
                  laddr remote ⟨id⟩ = none →
                (NewTeleportation env mp id remote opts).1 =
                  .ok { role := .source,
                        Name := tunnelName remote
                          (opts.foldl (fun o opt => opt o) newNewTeleportationOption),
                        Source := laddr, Sink := remote, Transport := ⟨id⟩,
                        lis := some mp.listeners.length })))))) := by
  constructor
  · intro e he
    simp [NewTeleportation, he]
  · intro laddr hl
    refine ⟨?_, ?_⟩
    · intro e he
      simp only [newTeleportationRequest, createRequest_fst] at he
      simp [NewTeleportation, hl, he]
    · intro res hres
      simp only [newTeleportationRequest, createRequest_fst] at hres
      refine ⟨?_, ?_⟩
      · intro hne
        simp [NewTeleportation, hl, hres, hne]
      · intro hempty
        refine ⟨?_, ?_⟩
        · intro hmem
          simp [NewTeleportation, hl, hres, hempty, getTransport, hmem]
        · intro hmem
          refine ⟨?_, ?_⟩
          · intro e he
            simp [NewTeleportation, hl, hres, hempty, getTransport, hmem, he]
          · intro hlis
            refine ⟨?_, ?_⟩
            · intro e he
              simp [NewTeleportation, hl, hres, hempty, getTransport, hmem, hlis, he]
            · intro hsrc
              simp [NewTeleportation, hl, hres, hempty, getTransport, hmem, hlis, hsrc]

/-- C9. `NewTeleportation` is atomic on the initiator's registries. The call fails at the
first step that fails and returns that step's error and no half: a failed local-address
check, a failed round trip, a response with a non-empty error field (`fmt.Errorf` of it), a
missing transport (`TransportNotExistError`), a failed `net.Listen`, a failed construction
of the source half; when no step fails it returns the half. Whenever the call returns an
error, the source registry, the sink registry and the transport-state subscriptions are
exactly as before and no subscription was made; a response with a non-empty error field
opens no listener; and when the call succeeds, the half is in the source registry under its
name and `GetTeleportation(name, source-first)` returns it. -/
theorem NewTeleportation_atomic (env : Env) (mp : Meepo) (id : String) (remote : Addr)
    (opts : List OFN) :
    ((∀ e, localAddress env (opts.foldl (fun o opt => opt o) newNewTeleportationOption)
          = .error e →
        (NewTeleportation env mp id remote opts).1 = .error e) ∧
      (∀ laddr, localAddress env (opts.foldl (fun o opt => opt o) newNewTeleportationOption)
          = .ok laddr →
        (∀ e, env.doRequest id (.newTeleportation (newTeleportationRequest mp remote
              (opts.foldl (fun o opt => opt o) newNewTeleportationOption) laddr)) = .error e →
          (NewTeleportation env mp id remote opts).1 = .error e) ∧
        (∀ res, env.doRequest id (.newTeleportation (newTeleportationRequest mp remote
              (opts.foldl (fun o opt => opt o) newNewTeleportationOption) laddr)) = .ok res →
          (res.Error ≠ "" →
            (NewTeleportation env mp id remote opts).1 = .error (.Errorf res.Error)) ∧
          (res.Error = "" →
            (id ∉ mp.transports →
              (NewTeleportation env mp id remote opts).1 = .error .TransportNotExistError) ∧
            (id ∈ mp.transports →
              (∀ e, env.Listen laddr.network laddr.text = some e →
                (NewTeleportation env mp id remote opts).1 = .error e) ∧
              (env.Listen laddr.network laddr.text = none →
                (∀ e, env.NewTeleportationSource
                    (tunnelName remote (opts.foldl (fun o opt => opt o) newNewTeleportationOption))
                    laddr remote ⟨id⟩ = some e →
                  (NewTeleportation env mp id remote opts).1 = .error e) ∧
                (env.NewTeleportationSource
                    (tunnelName remote (opts.foldl (fun o opt => opt o) newNewTeleportationOption))
                    laddr remote ⟨id⟩ = none →
                  (NewTeleportation env mp id remote opts).1 =
                    .ok { role := .source,
                          Name := tunnelName remote
                            (opts.foldl (fun o opt => opt o) newNewTeleportationOption),
                          Source := laddr, Sink := remote, Transport := ⟨id⟩,
                          lis := some mp.listeners.length }))))))) ∧
    ((∀ err mp1, NewTeleportation env mp id remote opts = (.error err, mp1) →
        mp1.teleportationSources = mp.teleportationSources ∧
        mp1.teleportationSinks = mp.teleportationSinks ∧
        mp1.handlers = mp.handlers ∧
        (newEvents mp mp1).countP Event.isSubscribe = 0) ∧
      (∀ req res, Event.doRequest id req (.ok res) ∈
          newEvents mp (NewTeleportation env mp id remote opts).2 → res.Error ≠ "" →
        (NewTeleportation env mp id remote opts).1 = .error (.Errorf res.Error) ∧
        (NewTeleportation env mp id remote opts).2.listeners = mp.listeners ∧
        (newEvents mp (NewTeleportation env mp id remote opts).2).countP Event.isListen = 0) ∧
      (∀ ts mp1, NewTeleportation env mp id remote opts = (.ok ts, mp1) →
        regGet mp1.teleportationSources ts.Name = some ts ∧
        GetTeleportation mp1 ts.Name .SourceFirst = .ok ts)) :=
  ⟨NewTeleportation_steps env mp id remote opts,
   NewTeleportation_error_frame env mp id remote opts⟩

theorem NewTeleportation_atomic_witness :
    (NewTeleportation envNoListen nodeA "B" tcpRemote []).1
      = .error (.other "address already in use") ∧
    (NewTeleportation envNoSource nodeA "B" tcpRemote []).1
      = .error (.other "new teleportation source") ∧
    (NewTeleportation envNoSource nodeA "B" tcpRemote []).2.teleportationSources
      = nodeA.teleportationSources ∧
    (NewTeleportation envDenied nodeA "B" tcpRemote []).1 = .error (.Errorf "denied") ∧
    (NewTeleportation envDenied nodeA "B" tcpRemote []).2.listeners = nodeA.listeners :=
  ⟨(((((NewTeleportation_atomic envNoListen nodeA "B" tcpRemote []).1.2 tcpLocal rfl).2
      ⟨"B", .MESSAGE_TYPE_RESPONSE, 0, "", ""⟩ rfl).2 rfl).2 (by decide)).1
      (.other "address already in use") rfl,
   rfl,
   ((NewTeleportation_atomic envNoSource nodeA "B" tcpRemote []).2.1 _ _ rfl).1,
   ((NewTeleportation_atomic envDenied nodeA "B" tcpRemote []).2.2.1 _
      ⟨"B", .MESSAGE_TYPE_RESPONSE, 0, "", "denied"⟩
      (List.mem_cons_of_mem _ (List.mem_cons_self _ _)) (by decide)).1,
   ((NewTeleportation_atomic envDenied nodeA "B" tcpRemote []).2.2.1 _
      ⟨"B", .MESSAGE_TYPE_RESPONSE, 0, "", "denied"⟩
      (List.mem_cons_of_mem _ (List.mem_cons_self _ _)) (by decide)).2.1⟩

/-- C2, as stated, fails. On node `A` the first `Teleport("B", tcp 10.0.0.5:9000)` succeeds
with `127.0.0.1:0` and creates `firstHalf`. With that half still registered and the
transport to `B` gone, the second call goes through `NewTransport` and returns its error.
And with that half still registered and a second tunnel to the same remote address created
by `NewTeleportation` under the name `"second"`, the source registry holds two halves of
`B` whose sink is the remote address. -/
theorem Teleport_idempotent_counterexample :
    Teleport envNoTransport nodeA "B" tcpRemote [] = (.ok tcpLocal, nodeT1) ∧
    getTeleportationSource nodeT1 firstHalf.Name = some firstHalf ∧
    getTeleportationSource nodeGone firstHalf.Name = some firstHalf ∧
    (Teleport envNoTransport nodeGone "B" tcpRemote []).1 = .error (.other "signaling down") ∧
    (NewTeleportation envNoTransport nodeT1 "B" tcpRemote [WithName "second"]).1
      = .ok { firstHalf with Name := "second", lis := some 1 } ∧
    getTeleportationSource nodeTwo firstHalf.Name = some firstHalf ∧
    ((nodeTwo.teleportationSources.map Prod.snd).filter
      (fun t => t.Transport.PeerID = "B" ∧ sameAddr tcpRemote t)).length = 2 :=
  ⟨rfl, rfl, rfl, rfl, rfl, rfl, rfl⟩

/-- C5, on the code: the peer answers a `doTeleport` request with the error text
"50%d off"; the callback returns `fmt.Errorf` of that text, used as the format, and the
message of the returned error is "50%!d(MISSING) off", not the text of the response. -/
theorem doTeleportFunc_text_as_format :
    (doTeleportFunc envPercent nodeA "B" "web" "stream-1").1 = some (.Errorf "50%d off") ∧
    (Err.Errorf "50%d off").Error envPercent.Sprintf = "50%!d(MISSING) off" ∧
    (Err.Errorf "50%d off").Error envPercent.Sprintf ≠ "50%d off" :=
  ⟨rfl, rfl, by decide⟩

end Mp
